import Mathlib

/-
  Verification of the P-384 scalar field element implementation
  (src/p384/src/arithmetic/scalar.rs).

  Shallow embedding notes.  A `Scalar` is physically a 6-limb (64-bit limbs)
  array holding a value in Montgomery domain; a limb array is in bijection
  with the natural number below 2^384 it encodes (little-endian limb order),
  so we model the wrapped limb array of a `Scalar` as that natural number.
  The fiat-crypto backend (module `p384_scalar`, not part of the sources)
  is modelled from the spec: it is described there as a verified
  constant-time field backend supplying limb-level add/sub/mul/square/negate,
  Montgomery-domain conversion, byte (de)serialization, and one divstep
  primitive, all for the modulus `n` (the curve group order).
-/

namespace P384

/-- The P-384 group order `n` (the scalar field modulus), a 384-bit prime. -/
def ORDER : ℕ :=
  39402006196394479212279040100143613805079739270465446667946905279627659399113263569398956308152294913554433653942643

/-- The Montgomery constant `R = 2^384 mod n`. -/
def R : ℕ := 2 ^ 384 % ORDER

/-- The inverse of `R` modulo `ORDER` (explicit constant). -/
def RINV : ℕ :=
  8213155180316830564023772752902517460134849974600554980379995049303147060140144611822562736815346652390458105321745

theorem RINV_spec : R * RINV % ORDER = 1 := by decide

theorem ORDER_pos : 0 < ORDER := by decide

/-- Modelled from the spec: backend Montgomery-domain conversion
`fiat_p384_scalar_to_montgomery`, mapping a value `x` to `x * R mod n`. -/
def toMont (x : ℕ) : ℕ := x * R % ORDER

/-- Modelled from the spec: backend conversion out of Montgomery domain
`fiat_p384_scalar_from_montgomery`, mapping a representation `x` to
`x * R⁻¹ mod n`. -/
def fromMont (x : ℕ) : ℕ := x * RINV % ORDER

/-- Modelled from the spec: backend Montgomery multiplication
`fiat_p384_scalar_mul`: on representations, `(a, b) ↦ a * b * R⁻¹ mod n`. -/
def montMul (a b : ℕ) : ℕ := a * b * RINV % ORDER

/-- Modelled from the spec: backend squaring `fiat_p384_scalar_square`. -/
def montSquare (a : ℕ) : ℕ := montMul a a

/-- Modelled from the spec: backend addition `fiat_p384_scalar_add`. -/
def montAdd (a b : ℕ) : ℕ := (a + b) % ORDER

/-- Modelled from the spec: backend subtraction `fiat_p384_scalar_sub`. -/
def montSub (a b : ℕ) : ℕ := (a + (ORDER - b % ORDER)) % ORDER

/-- Modelled from the spec: backend negation `fiat_p384_scalar_opp`. -/
def montOpp (a : ℕ) : ℕ := (ORDER - a % ORDER) % ORDER

/-- Modelled from the spec: backend `fiat_p384_scalar_set_one`, the
Montgomery representation of 1, namely `R mod n`. -/
def montOne : ℕ := R

/-- Little-endian byte serialization of a value into `k` bytes, the
mathematical content of the backend `fiat_p384_scalar_to_bytes` (`k = 48`). -/
def leBytes : ℕ → ℕ → List ℕ
  | 0, _ => []
  | k + 1, v => v % 256 :: leBytes k (v / 256)

/-- The 48 little-endian bytes of the group order (`NistP384::ORDER.to_le_bytes()`). -/
def orderLeBytes : List ℕ := leBytes 48 ORDER

/- ### The canonical codec (`Scalar::from_le_bytes` and friends) -/

/-- One byte-comparison: `(((s as u16).wrapping_sub(l as u16) >> 8) as u8)`
from the canonicality-check loop of `Scalar::from_le_bytes`. -/
def wsubHi (s l : ℕ) : ℕ := (s + 65536 - l) % 65536 / 256 % 256

/-- One byte-equality mask: `((((s ^ l) as u16).wrapping_sub(1) >> 8) as u8)`
from the canonicality-check loop of `Scalar::from_le_bytes`. -/
def eqMask (s l : ℕ) : ℕ := ((s ^^^ l) + 65535) % 65536 / 256 % 256

/-- One iteration of the canonicality-check loop: updates the running
state `(c, n)` with the byte pair `(s, l)` via
`c |= wsubHi s l & n` and `n &= eqMask s l`. -/
def cmpStep (st : ℕ × ℕ) (p : ℕ × ℕ) : ℕ × ℕ :=
  (st.1 ||| (wsubHi p.1 p.2 &&& st.2), st.2 &&& eqMask p.1 p.2)

/-- The flag `c` computed by the loop in `Scalar::from_le_bytes`: the fold of
`cmpStep` over the byte pairs `bytes.iter().rev().zip(order_le.iter().rev())`,
starting from `c = 0`, `n = 1`. -/
def ltOrderFlag (bytes : List ℕ) : ℕ :=
  (List.foldl cmpStep (0, 1) (bytes.reverse.zip orderLeBytes.reverse)).1

/-- Source `Scalar::from_le_bytes`: canonicality check, then byte decoding and
conversion into Montgomery domain.  `none` models `Err(Error)`. -/
def from_le_bytes (bytes : List ℕ) : Option ℕ :=
  if ltOrderFlag bytes = 0 then none
  else some (toMont (Nat.ofDigits 256 bytes))

/-- The byte-order reversal `swap48` (a 48-byte buffer is modelled as a list,
and the source loop writes the input back in reverse order). -/
def swap48 (bytes : List ℕ) : List ℕ := bytes.reverse

/-- Source `Scalar::from_be_bytes`: delegates to `from_le_bytes` on the
byte-reversed buffer. -/
def from_be_bytes (bytes : List ℕ) : Option ℕ :=
  from_le_bytes (swap48 bytes)

/-- Source `Scalar::to_le_bytes`: converts out of Montgomery domain and serializes
the limbs to 48 little-endian bytes. -/
def to_le_bytes (s : ℕ) : List ℕ := leBytes 48 (fromMont s)

/-- Source `Scalar::to_be_bytes`: the little-endian encoding, byte-reversed. -/
def to_be_bytes (s : ℕ) : List ℕ := swap48 (to_le_bytes s)

/- ### Constants and simple constructors -/

namespace Scalar

/-- The constant `Scalar::ONE` as written in the source: the limb array
`[1374695839762142861, 12098342389602539653, 4079331616924160544, 0, 0, 0]`
(little-endian limb order). -/
def ONE : ℕ :=
  1374695839762142861 + 12098342389602539653 * 2 ^ 64 + 4079331616924160544 * 2 ^ 128

/-- The constant `Scalar::ZERO`: the all-zero limb array. -/
def ZERO : ℕ := 0

end Scalar

/-- The source constant `Scalar::ONE` is the Montgomery representation of 1. -/
theorem Scalar.ONE_is_mont_one : Scalar.ONE = toMont 1 := by decide

/-- Source `PrimeField::from_repr`: decodes a big-endian 48-byte buffer with no
canonicality check (the returned `CtOption` always carries flag 1). -/
def from_repr (bytes : List ℕ) : ℕ × Bool :=
  (toMont (Nat.ofDigits 256 bytes.reverse), true)

/-- Source `Field::random`: fills a buffer from the generator and returns on the
first iteration in which `from_repr` succeeds; since `from_repr` always
succeeds, this is `from_repr` of the first drawn buffer. -/
def random (bytes : List ℕ) : ℕ := (from_repr bytes).1

/-- Source `From<u64> for Scalar`: writes the word into `limbs[limbs.len() - 1]`
(the most significant limb, worth `2^320`) and converts to Montgomery
domain. -/
def fromU64 (k : ℕ) : ℕ := toMont (k % 2 ^ 64 * 2 ^ 320)

/-- Source `TryFrom<U384> for Scalar`: deserializes the little-endian bytes of `w`
into a limb array and wraps it directly (no canonicality check and no
Montgomery conversion); it never returns an error. -/
def tryFromU384 (w : ℕ) : Option ℕ :=
  some (Nat.ofDigits 256 (leBytes 48 (w % 2 ^ 384)))

/-- Source `From<Scalar> for U384`: the integer value of the scalar's little-endian
encoding. -/
def u384FromScalar (s : ℕ) : ℕ := Nat.ofDigits 256 (to_le_bytes s)

/-- Source `Reduce<U384>::from_uint_reduced`: subtract the order with borrow, and
select the difference unless the subtraction underflowed; the result is
rebuilt through `ScalarCore::new(...).unwrap()` and the canonical decoder,
which requires it to be below the order (`none` models the panic on a
non-canonical value). -/
def from_uint_reduced (w : ℕ) : Option ℕ :=
  let w' := w % 2 ^ 384
  let reduced := if w' < ORDER then w' else w' - ORDER
  if reduced < ORDER then some (toMont reduced) else none

/- ### Comparison layer -/

/-- The `i`-th 64-bit limb of the value `x` (little-endian limb order). -/
def limb (i x : ℕ) : ℕ := x / 2 ^ (64 * i) % 2 ^ 64

/-- Source `Scalar::ct_gt`: iterates over the limb pairs of the two Montgomery
representations and raises the output whenever `x > y`, never lowering it. -/
def ct_gt (a b : ℕ) : Bool :=
  (List.range 6).foldl (fun out i => out || decide (limb i b < limb i a)) false

/-- Source `frac_modulus_2()`: decodes the little-endian bytes of `ORDER >> 1`. -/
def frac_modulus_2 : ℕ := (from_le_bytes (leBytes 48 (ORDER / 2))).getD 0

/-- Source `IsHigh::is_high`: `self.ct_gt(&frac_modulus_2())`. -/
def is_high (s : ℕ) : Bool := ct_gt s frac_modulus_2

/- ### The square-root engine (`Field::sqrt`) -/

/-- Source `Scalar::sqn`: iterated squaring, `n` backend squarings in sequence. -/
def sqn (x : ℕ) : ℕ → ℕ
  | 0 => x
  | k + 1 => sqn (montSquare x) k

def t1 (a : ℕ) : ℕ := a
def t10 (a : ℕ) : ℕ := montSquare (t1 a)
def t11 (a : ℕ) : ℕ := montMul (t1 a) (t10 a)
def t101 (a : ℕ) : ℕ := montMul (t10 a) (t11 a)
def t111 (a : ℕ) : ℕ := montMul (t10 a) (t101 a)
def t1001 (a : ℕ) : ℕ := montMul (t10 a) (t111 a)
def t1011 (a : ℕ) : ℕ := montMul (t10 a) (t1001 a)
def t1101 (a : ℕ) : ℕ := montMul (t10 a) (t1011 a)
def t1111 (a : ℕ) : ℕ := montMul (t10 a) (t1101 a)
def t11110 (a : ℕ) : ℕ := montSquare (t1111 a)
def t11111 (a : ℕ) : ℕ := montMul (t1 a) (t11110 a)
def t1111100 (a : ℕ) : ℕ := sqn (t11111 a) 2
def t11111000 (a : ℕ) : ℕ := montSquare (t1111100 a)
def i14 (a : ℕ) : ℕ := montSquare (t11111000 a)
def i20 (a : ℕ) : ℕ := montMul (sqn (i14 a) 5) (i14 a)
def i31 (a : ℕ) : ℕ := montMul (sqn (i20 a) 10) (i20 a)
def i58 (a : ℕ) : ℕ := montMul (sqn (montMul (sqn (i31 a) 4) (t11111000 a)) 21) (i31 a)
def i110 (a : ℕ) : ℕ := montMul (sqn (montMul (sqn (i58 a) 3) (t1111100 a)) 47) (i58 a)
def x194 (a : ℕ) : ℕ := montMul (montMul (sqn (i110 a) 95) (i110 a)) (t1111 a)
def i225 (a : ℕ) : ℕ := sqn (montMul (sqn (montMul (sqn (x194 a) 6) (t111 a)) 3) (t11 a)) 7
def i235 (a : ℕ) : ℕ := montMul (montSquare (montMul (sqn (montMul (t1101 a) (i225 a)) 6) (t1101 a))) (t1 a)
def i258 (a : ℕ) : ℕ := sqn (montMul (sqn (montMul (sqn (i235 a) 11) (t11111 a)) 2) (t1 a)) 8
def i269 (a : ℕ) : ℕ := montMul (sqn (montMul (sqn (montMul (t1101 a) (i258 a)) 2) (t11 a)) 6) (t1011 a)
def i286 (a : ℕ) : ℕ := sqn (montMul (sqn (montMul (sqn (i269 a) 4) (t111 a)) 6) (t11111 a)) 5
def i308 (a : ℕ) : ℕ := montMul (sqn (montMul (sqn (montMul (t1011 a) (i286 a)) 10) (t1101 a)) 9) (t1101 a)
def i323 (a : ℕ) : ℕ := sqn (montMul (sqn (montMul (sqn (i308 a) 4) (t1011 a)) 6) (t1001 a)) 3
def i340 (a : ℕ) : ℕ := montMul (sqn (montMul (sqn (montMul (t1 a) (i323 a)) 7) (t1011 a)) 7) (t101 a)
def i357 (a : ℕ) : ℕ := sqn (montMul (sqn (montMul (sqn (i340 a) 5) (t111 a)) 5) (t1111 a)) 5
def i369 (a : ℕ) : ℕ := montMul (sqn (montMul (sqn (montMul (t1011 a) (i357 a)) 4) (t1011 a)) 5) (t111 a)
def i387 (a : ℕ) : ℕ := sqn (montMul (sqn (montMul (sqn (i369 a) 3) (t11 a)) 7) (t11 a)) 6
def i397 (a : ℕ) : ℕ := montMul (sqn (montMul (sqn (montMul (t1011 a) (i387 a)) 4) (t101 a)) 3) (t11 a)
def i413 (a : ℕ) : ℕ := sqn (montMul (sqn (montMul (sqn (i397 a) 4) (t11 a)) 4) (t11 a)) 6
def i427 (a : ℕ) : ℕ := montMul (sqn (montMul (sqn (montMul (t101 a) (i413 a)) 5) (t101 a)) 6) (t1011 a)
def sqrtCandidate (a : ℕ) : ℕ := montMul (sqn (i427 a) 3) (t101 a)

/-- Source `Field::sqrt`: computes the addition-chain candidate and then carries it
together with the validity flag `x.square() == t1`. -/
def sqrt (a : ℕ) : ℕ × Bool :=
  (sqrtCandidate a, montSquare (sqrtCandidate a) == a)

/- ### The constant-time inversion engine (`Field::invert`) -/

/-- The constant `LEN_PRIME`: the field bit length. -/
def LEN_PRIME : ℕ := 384

/-- The constant `ITERATIONS` as written in the source:
`(49 * LEN_PRIME + if LEN_PRIME < 46 { 80 } else { 57 }) / 17`
(Rust integer division truncates). -/
def ITERATIONS : ℕ := (49 * LEN_PRIME + if LEN_PRIME < 46 then 80 else 57) / 17

/-- State threaded through the divstep loop: the step counter `d`, the GCD
vectors `f` and `g` (signed, one limb wider than the field), and the
cofactors `v` and `r` (Montgomery-domain field elements). -/
structure DivState where
  d : ℤ
  f : ℤ
  g : ℤ
  v : ℕ
  r : ℕ
deriving DecidableEq

/-- Modelled from the spec: the backend divstep primitive
`fiat_p384_scalar_divstep`, the Bernstein-Yang transition: a data-independent
update of `(d, f, g, v, r)` determined by the low bits of `f` and `g` and the
sign of `d`; the cofactors are updated by the matching linear rule modulo the
order. -/
def divstep (s : DivState) : DivState :=
  if 0 < s.d ∧ s.g % 2 = 1 then
    ⟨1 - s.d, s.g, (s.g - s.f) / 2, 2 * s.r % ORDER, montSub s.r s.v⟩
  else
    ⟨1 + s.d, s.f, (s.g + s.g % 2 * s.f) / 2, 2 * s.v % ORDER,
      (s.r + (s.g % 2).toNat * s.v) % ORDER⟩

/-- Iterating `k` successive divstep applications. -/
def divstepLoop : ℕ → DivState → DivState
  | 0, s => s
  | k + 1, s => divstepLoop k (divstep s)

/-- Modelled from the spec: the backend constant
`fiat_p384_scalar_divstep_precomp`, the fixed precomputed correction factor:
the Montgomery representation of `2 ^ (-ITERATIONS) mod n`. -/
def divstep_precomp : ℕ :=
  6714546588949609148793886402118982983111368120957444438556650903773298405693036409899834301446342269832224707992426

set_option maxRecDepth 4000 in
theorem divstep_precomp_spec :
    divstep_precomp * 2 ^ ITERATIONS % ORDER = toMont 1 := by decide

/-- The initial divstep state built by `Field::invert`: `d = 1`,
`f = msat` (the saturated order), `g` the input taken out of Montgomery
domain, `v = 0`, `r = one()`. -/
def invertInitState (a : ℕ) : DivState :=
  ⟨1, (ORDER : ℤ), (fromMont a : ℤ), 0, montOne⟩

/-- The state after the fused two-at-a-time while loop of `Field::invert`
(`ITERATIONS - ITERATIONS % 2` divsteps) followed by the conditional final
divstep when `ITERATIONS` is odd. -/
def invertFinalState (a : ℕ) : DivState :=
  let sEven := divstepLoop (ITERATIONS - ITERATIONS % 2) (invertInitState a)
  if ITERATIONS % 2 ≠ 0 then divstep sEven else sEven

/-- The total number of divstep invocations performed by `Field::invert`:
two per pass of the while loop plus the conditional trailing one. -/
def invertDivstepCount : ℕ := (ITERATIONS - ITERATIONS % 2) + ITERATIONS % 2

/-- Source `Field::invert`: runs the divstep loop, conditionally negates the
cofactor `v` according to the sign (top bit) of `f`, multiplies by the
precomputed correction constant, and carries the validity flag
`!self.is_zero()`. -/
def fieldInvert (a : ℕ) : ℕ × Bool :=
  let sFin := invertFinalState a
  let v_opp := montOpp sFin.v
  let v_ := if sFin.f < 0 then v_opp else sFin.v
  (montMul v_ divstep_precomp, !(a == 0))

/-- Source `Scalar::invert`: delegates to `Field::invert`. -/
def scalarInvert (a : ℕ) : ℕ × Bool := fieldInvert a

/-- Source `Scalar::invert_vartime`: delegates to `Scalar::invert`. -/
def invert_vartime (a : ℕ) : ℕ × Bool := scalarInvert a

/- ### Scalars constructible through the public API -/

/-- The ways the API constructs a `Scalar` (claim C4): the checked byte
decoders, `from_repr`, `From<u64>`, `TryFrom<U384>`, random sampling,
modular reduction, and the arithmetic operations. -/
inductive IsConstructed : ℕ → Prop where
  | ofFromLeBytes (bytes : List ℕ) (s : ℕ) : from_le_bytes bytes = some s → IsConstructed s
  | ofFromBeBytes (bytes : List ℕ) (s : ℕ) : from_be_bytes bytes = some s → IsConstructed s
  | ofFromRepr (bytes : List ℕ) : IsConstructed (from_repr bytes).1
  | ofFromU64 (k : ℕ) : IsConstructed (fromU64 k)
  | ofTryFromU384 (w s : ℕ) : tryFromU384 w = some s → IsConstructed s
  | ofRandom (bytes : List ℕ) : IsConstructed (random bytes)
  | ofReduce (w s : ℕ) : from_uint_reduced w = some s → IsConstructed s
  | ofAdd (a b : ℕ) : IsConstructed (montAdd a b)
  | ofSub (a b : ℕ) : IsConstructed (montSub a b)
  | ofOpp (a : ℕ) : IsConstructed (montOpp a)
  | ofMul (a b : ℕ) : IsConstructed (montMul a b)
  | ofSquare (a : ℕ) : IsConstructed (montSquare a)
  | ofInvert (a : ℕ) : IsConstructed (fieldInvert a).1
  | ofSqrt (a : ℕ) : IsConstructed (sqrt a).1

/- ### Correctness of the canonicality check (claim C3) -/

theorem orderLeBytes_digits_lt : ∀ d ∈ orderLeBytes, d < 256 := by decide

theorem orderLeBytes_length : orderLeBytes.length = 48 := by decide

theorem orderLeBytes_value : Nat.ofDigits 256 orderLeBytes = ORDER := by decide

theorem xor_lt_256 {s l : ℕ} (hs : s < 256) (hl : l < 256) : s ^^^ l < 256 := by
  have h : Nat.bitwise bne s l < 2 ^ 8 :=
    Nat.bitwise_lt (Nat.lt_of_lt_of_le hs (by norm_num))
      (Nat.lt_of_lt_of_le hl (by norm_num))
  exact h

theorem wsubHi_eq {s l : ℕ} (hs : s < 256) (hl : l < 256) :
    wsubHi s l = if s < l then 255 else 0 := by
  unfold wsubHi
  split <;> omega

theorem eqMask_eq {s l : ℕ} (hs : s < 256) (hl : l < 256) :
    eqMask s l = if s = l then 255 else 0 := by
  unfold eqMask
  by_cases h : s = l
  · subst h
    simp [Nat.xor_self]
  · have h1 : s ^^^ l ≠ 0 := by
      simpa using Nat.xor_eq_zero.not.mpr h
    have h2 : s ^^^ l < 256 := xor_lt_256 hs hl
    simp only [h, if_false]
    omega

/-- Lexicographic strict comparison of paired byte lists, most significant
first: the reference predicate for the canonicality-check loop. -/
def lexLtB : List (ℕ × ℕ) → Bool
  | [] => false
  | p :: t => decide (p.1 < p.2) || (decide (p.1 = p.2) && lexLtB t)

/-- All byte pairs equal: the reference predicate for the running flag `n`. -/
def allEqB : List (ℕ × ℕ) → Bool
  | [] => true
  | p :: t => decide (p.1 = p.2) && allEqB t

theorem cmpStep_eq {s l : ℕ} (hs : s < 256) (hl : l < 256) (c nf : Bool) :
    cmpStep (if c then 1 else 0, if nf then 1 else 0) (s, l) =
      ((if c || (nf && decide (s < l)) then 1 else 0),
        (if nf && decide (s = l) then 1 else 0)) := by
  unfold cmpStep
  rw [wsubHi_eq hs hl, eqMask_eq hs hl]
  rcases c <;> rcases nf <;> by_cases h1 : s < l <;> by_cases h2 : s = l <;>
    simp [h1, h2] <;> omega

theorem cmpFold_eq (L : List (ℕ × ℕ)) (hL : ∀ p ∈ L, p.1 < 256 ∧ p.2 < 256)
    (c nf : Bool) :
    List.foldl cmpStep (if c then 1 else 0, if nf then 1 else 0) L =
      ((if c || (nf && lexLtB L) then 1 else 0),
        (if nf && allEqB L then 1 else 0)) := by
  induction L generalizing c nf with
  | nil => simp [lexLtB, allEqB]
  | cons p t ih =>
    obtain ⟨hs, hl⟩ := hL p (List.mem_cons_self p t)
    have ht : ∀ q ∈ t, q.1 < 256 ∧ q.2 < 256 := fun q hq => hL q (List.mem_cons_of_mem p hq)
    obtain ⟨s, l⟩ := p
    rw [List.foldl_cons, cmpStep_eq hs hl, ih ht]
    congr 1
    · congr 1
      simp only [lexLtB]
      rcases c <;> rcases nf <;> rcases h1 : decide (s < l) <;>
        rcases h2 : decide (s = l) <;> rcases lexLtB t <;> simp
    · congr 1
      simp only [allEqB]
      rcases nf <;> rcases decide (s = l) <;> rcases allEqB t <;> simp

theorem lexLtB_zip_iff (a : List ℕ) :
    ∀ b : List ℕ, a.length = b.length → (∀ d ∈ a, d < 256) → (∀ d ∈ b, d < 256) →
      (lexLtB (a.zip b) = true ↔
        Nat.ofDigits 256 a.reverse < Nat.ofDigits 256 b.reverse) := by
  induction a with
  | nil =>
    intro b hlen _ _
    have : b = [] := List.eq_nil_of_length_eq_zero hlen.symm
    subst this
    simp [lexLtB]
  | cons x a' ih =>
    intro b hlen ha hb
    rcases b with _ | ⟨y, b'⟩
    · simp at hlen
    have hlen' : a'.length = b'.length := by simpa using hlen
    have hx : x < 256 := ha x (List.mem_cons_self x a')
    have hy : y < 256 := hb y (List.mem_cons_self y b')
    have ha' : ∀ d ∈ a', d < 256 := fun d hd => ha d (List.mem_cons_of_mem x hd)
    have hb' : ∀ d ∈ b', d < 256 := fun d hd => hb d (List.mem_cons_of_mem y hd)
    have hV1 : Nat.ofDigits 256 a'.reverse < 256 ^ a'.length := by
      have := Nat.ofDigits_lt_base_pow_length (b := 256) (l := a'.reverse)
        (by norm_num) (by simpa using ha')
      simpa using this
    have hV2 : Nat.ofDigits 256 b'.reverse < 256 ^ a'.length := by
      have := Nat.ofDigits_lt_base_pow_length (b := 256) (l := b'.reverse)
        (by norm_num) (by simpa using hb')
      simpa [hlen'] using this
    have hza : (x :: a').reverse = a'.reverse ++ [x] := by simp
    have hzb : (y :: b').reverse = b'.reverse ++ [y] := by simp
    rw [hza, hzb, Nat.ofDigits_append, Nat.ofDigits_append]
    simp only [Nat.ofDigits_singleton, List.length_reverse, hlen']
    rw [← hlen']
    have hzip : (x :: a').zip (y :: b') = (x, y) :: a'.zip b' := rfl
    rw [hzip]
    simp only [lexLtB, Bool.or_eq_true, Bool.and_eq_true, decide_eq_true_eq]
    constructor
    · rintro (hlt | ⟨heq, hrec⟩)
      · have h1 : Nat.ofDigits 256 a'.reverse + 256 ^ a'.length * x <
            256 ^ a'.length * (x + 1) := by
          rw [Nat.mul_add, Nat.mul_one]
          omega
        have h2 : 256 ^ a'.length * (x + 1) ≤ 256 ^ a'.length * y :=
          Nat.mul_le_mul_left _ hlt
        omega
      · subst heq
        have := (ih b' hlen' ha' hb').mp hrec
        omega
    · intro hsum
      rcases Nat.lt_trichotomy x y with hlt | heq | hgt
      · exact Or.inl hlt
      · subst heq
        right
        refine ⟨rfl, (ih b' hlen' ha' hb').mpr ?_⟩
        omega
      · exfalso
        have h1 : Nat.ofDigits 256 b'.reverse + 256 ^ a'.length * y <
            256 ^ a'.length * (y + 1) := by
          rw [Nat.mul_add, Nat.mul_one]
          omega
        have h2 : 256 ^ a'.length * (y + 1) ≤ 256 ^ a'.length * x :=
          Nat.mul_le_mul_left _ hgt
        omega

theorem ltOrderFlag_spec (bytes : List ℕ) (hlen : bytes.length = 48)
    (hd : ∀ d ∈ bytes, d < 256) :
    (ltOrderFlag bytes = 0 ↔ ORDER ≤ Nat.ofDigits 256 bytes) := by
  unfold ltOrderFlag
  have hL : ∀ p ∈ bytes.reverse.zip orderLeBytes.reverse, p.1 < 256 ∧ p.2 < 256 := by
    intro p hp
    have h1 := List.of_mem_zip hp
    exact ⟨hd p.1 (List.mem_reverse.mp h1.1),
      orderLeBytes_digits_lt p.2 (List.mem_reverse.mp h1.2)⟩
  have hfold := cmpFold_eq (bytes.reverse.zip orderLeBytes.reverse) hL false true
  norm_num at hfold
  have hiff := lexLtB_zip_iff bytes.reverse orderLeBytes.reverse
    (by simp [hlen, orderLeBytes_length])
    (by simpa using hd) (by simpa using orderLeBytes_digits_lt)
  simp only [List.reverse_reverse, orderLeBytes_value] at hiff
  rcases h : lexLtB (bytes.reverse.zip orderLeBytes.reverse) with _ | _
  · simp only [h] at hfold
    rw [hfold]
    have hge : ORDER ≤ Nat.ofDigits 256 bytes := by
      by_contra hc
      push_neg at hc
      have h2 := hiff.mpr hc
      rw [h] at h2
      exact Bool.false_ne_true h2
    simpa using hge
  · simp only [h] at hfold
    rw [hfold]
    have hlt := hiff.mp h
    simp
    omega

/- ### Byte-list helper lemmas -/

theorem leBytes_length (k : ℕ) : ∀ v, (leBytes k v).length = k := by
  induction k with
  | zero => intro v; rfl
  | succ k ih => intro v; simp [leBytes, ih]

theorem leBytes_digits_lt (k : ℕ) : ∀ v, ∀ d ∈ leBytes k v, d < 256 := by
  induction k with
  | zero => intro v d hd; simp [leBytes] at hd
  | succ k ih =>
    intro v d hd
    simp only [leBytes, List.mem_cons] at hd
    rcases hd with hd | hd
    · omega
    · exact ih _ d hd

theorem ofDigits_leBytes (k : ℕ) : ∀ v, v < 256 ^ k → Nat.ofDigits 256 (leBytes k v) = v := by
  induction k with
  | zero =>
    intro v hv
    interval_cases v
    rfl
  | succ k ih =>
    intro v hv
    have hdiv : v / 256 < 256 ^ k := by
      rw [Nat.div_lt_iff_lt_mul (by norm_num)]
      calc v < 256 ^ (k + 1) := hv
        _ = 256 ^ k * 256 := by ring
    rw [leBytes, Nat.ofDigits_cons, ih _ hdiv]
    omega

theorem leBytes_ofDigits (L : List ℕ) (hL : ∀ d ∈ L, d < 256) :
    leBytes L.length (Nat.ofDigits 256 L) = L := by
  induction L with
  | nil => rfl
  | cons d t ih =>
    have hd : d < 256 := hL d (List.mem_cons_self d t)
    have ht : ∀ x ∈ t, x < 256 := fun x hx => hL x (List.mem_cons_of_mem d hx)
    have h1 : (d + 256 * Nat.ofDigits 256 t) % 256 = d := by omega
    have h2 : (d + 256 * Nat.ofDigits 256 t) / 256 = Nat.ofDigits 256 t := by omega
    simp only [List.length_cons, leBytes, Nat.ofDigits_cons]
    rw [h1, h2, ih ht]

/- ### Montgomery conversion round trips -/

theorem fromMont_toMont {v : ℕ} (h : v < ORDER) : fromMont (toMont v) = v := by
  unfold fromMont toMont
  rw [Nat.mod_mul_mod, mul_assoc, Nat.mul_mod, RINV_spec, Nat.mul_one]
  exact (Nat.mod_mod_of_dvd v dvd_rfl).trans (Nat.mod_eq_of_lt h)

theorem toMont_fromMont {s : ℕ} (h : s < ORDER) : toMont (fromMont s) = s := by
  unfold fromMont toMont
  rw [Nat.mod_mul_mod, mul_assoc, mul_comm RINV R, Nat.mul_mod, RINV_spec, Nat.mul_one]
  exact (Nat.mod_mod_of_dvd s dvd_rfl).trans (Nat.mod_eq_of_lt h)

theorem fromMont_lt (x : ℕ) : fromMont x < ORDER := Nat.mod_lt _ ORDER_pos

theorem toMont_lt (x : ℕ) : toMont x < ORDER := Nat.mod_lt _ ORDER_pos

theorem montMul_lt (a b : ℕ) : montMul a b < ORDER := Nat.mod_lt _ ORDER_pos

/- ### Claim C3 -/

/-- Claim C3: for every 48-byte buffer, `from_le_bytes` returns an error
exactly when the integer value of the buffer (little-endian) is at least the
group order, `from_be_bytes` behaves identically on the byte-reversed
buffer, and in particular decoding the encoding of the order itself fails. -/
theorem claim_C3 :
    (∀ bytes : List ℕ, bytes.length = 48 → (∀ d ∈ bytes, d < 256) →
      (from_le_bytes bytes = none ↔ ORDER ≤ Nat.ofDigits 256 bytes)
        ∧ (from_be_bytes bytes = none ↔ ORDER ≤ Nat.ofDigits 256 bytes.reverse))
    ∧ from_le_bytes (leBytes 48 ORDER) = none := by
  constructor
  · intro bytes hlen hd
    constructor
    · unfold from_le_bytes
      rw [← ltOrderFlag_spec bytes hlen hd]
      split <;> simp_all
    · unfold from_be_bytes swap48 from_le_bytes
      rw [← ltOrderFlag_spec bytes.reverse (by simpa using hlen)
        (by intro d hd1; exact hd d (List.mem_reverse.mp hd1))]
      split <;> simp_all
  · have h1 : (leBytes 48 ORDER).length = 48 := leBytes_length 48 ORDER
    have h2 : ∀ d ∈ leBytes 48 ORDER, d < 256 := leBytes_digits_lt 48 ORDER
    have h3 : Nat.ofDigits 256 (leBytes 48 ORDER) = ORDER :=
      ofDigits_leBytes 48 ORDER (by decide)
    unfold from_le_bytes
    rw [if_pos]
    rw [ltOrderFlag_spec _ h1 h2, h3]

/-- Witness for claim C3 at the concrete buffer holding the order itself. -/
theorem claim_C3_witness :
    (leBytes 48 ORDER).length = 48
      ∧ (from_le_bytes (leBytes 48 ORDER) = none ↔
          ORDER ≤ Nat.ofDigits 256 (leBytes 48 ORDER)) :=
  ⟨by decide, (claim_C3.1 (leBytes 48 ORDER) (by decide) (by decide)).1⟩

/- ### Claim C5 -/

/-- Claim C5: decoding a canonical 48-byte buffer (value strictly below the
order) and re-encoding it is the identity, for the little-endian pair and
for the big-endian pair alike. -/
theorem claim_C5 :
    (∀ bytes : List ℕ, bytes.length = 48 → (∀ d ∈ bytes, d < 256) →
      Nat.ofDigits 256 bytes < ORDER →
      (from_le_bytes bytes).map to_le_bytes = some bytes)
    ∧ (∀ bytes : List ℕ, bytes.length = 48 → (∀ d ∈ bytes, d < 256) →
      Nat.ofDigits 256 bytes.reverse < ORDER →
      (from_be_bytes bytes).map to_be_bytes = some bytes) := by
  have key : ∀ bytes : List ℕ, bytes.length = 48 → (∀ d ∈ bytes, d < 256) →
      Nat.ofDigits 256 bytes < ORDER →
      (from_le_bytes bytes).map to_le_bytes = some bytes := by
    intro bytes hlen hd hv
    have hflag : ¬ ltOrderFlag bytes = 0 := by
      rw [ltOrderFlag_spec bytes hlen hd]
      omega
    unfold from_le_bytes
    rw [if_neg hflag]
    unfold to_le_bytes
    rw [Option.map_some', fromMont_toMont hv]
    rw [← hlen, leBytes_ofDigits bytes hd]
  refine ⟨key, ?_⟩
  intro bytes hlen hd hv
  have h1 := key bytes.reverse (by simpa using hlen)
    (fun d hd1 => hd d (List.mem_reverse.mp hd1)) hv
  unfold from_be_bytes swap48
  unfold to_be_bytes swap48
  rcases h2 : from_le_bytes bytes.reverse with _ | s
  · rw [h2] at h1
    simp at h1
  · rw [h2] at h1
    simp only [Option.map_some', Option.some.injEq] at h1 ⊢
    rw [h1]
    simp

/-- Witness for claim C5 at the canonical buffer encoding 42. -/
theorem claim_C5_witness :
    Nat.ofDigits 256 (leBytes 48 42) < ORDER
      ∧ (from_le_bytes (leBytes 48 42)).map to_le_bytes = some (leBytes 48 42) :=
  ⟨by decide, claim_C5.1 (leBytes 48 42) (by decide) (by decide) (by decide)⟩

/- ### Claim C4 -/

/-- Claim C4: every Scalar produced by a public constructor or operation
satisfies the stated invariant: its limb array, converted out of Montgomery
domain, represents an integer strictly below the order.  (The backend
conversion out of Montgomery domain always reduces modulo the order, so the
invariant as stated holds for every constructible Scalar.) -/
theorem claim_C4 : ∀ s : ℕ, IsConstructed s → fromMont s < ORDER := by
  intro s _
  exact fromMont_lt s

/-- Witness for claim C4: the Scalar decoded by `from_repr` from the
encoding of 42 satisfies the invariant. -/
theorem claim_C4_witness : fromMont (from_repr (leBytes 48 42)).1 < ORDER :=
  claim_C4 _ (IsConstructed.ofFromRepr (leBytes 48 42))

/- ### Claim C8 -/

/-- Claim C8: for a 384-bit input below twice the order, the reduction
returns the Scalar representing `w mod n`, by one conditional subtraction. -/
theorem claim_C8 (w : ℕ) (h2n : w < 2 * ORDER) (h384 : w < 2 ^ 384) :
    from_uint_reduced w = some (toMont (w % ORDER)) := by
  unfold from_uint_reduced
  simp only [Nat.mod_eq_of_lt h384]
  by_cases h : w < ORDER
  · rw [if_pos h, if_pos h, Nat.mod_eq_of_lt h]
  · have hlt : w - ORDER < ORDER := by omega
    rw [if_neg h, if_pos hlt, Nat.mod_eq_sub_mod (by omega), Nat.mod_eq_of_lt hlt]

/-- Witness for claim C8 at `w = ORDER + 5`. -/
theorem claim_C8_witness :
    ORDER + 5 < 2 * ORDER ∧ ORDER + 5 < 2 ^ 384
      ∧ from_uint_reduced (ORDER + 5) = some (toMont ((ORDER + 5) % ORDER)) :=
  ⟨by decide, by decide, claim_C8 (ORDER + 5) (by decide) (by decide)⟩

/- ### Claim C9 -/

theorem invertFinalState_eq (a : ℕ) :
    invertFinalState a = divstepLoop ITERATIONS (invertInitState a) := by
  have hIT : ITERATIONS = 1110 := by decide
  unfold invertFinalState
  rw [hIT]
  norm_num

/-- Counterexample to claim C9: the loop of `Field::invert` does not perform
`⌈(49·384 + 57)/17⌉` divstep iterations (the source divides with truncation,
so the count is the floor, 1110, not the ceiling, 1111). -/
theorem claim_C9_counterexample :
    (invertDivstepCount : ℤ) ≠ ⌈(49 * 384 + 57 : ℚ) / 17⌉ := by
  have h1 : invertDivstepCount = 1110 := by decide
  have h2 : ⌈(49 * 384 + 57 : ℚ) / 17⌉ = 1111 := by
    rw [Int.ceil_eq_iff] <;> norm_num
  rw [h1, h2]
  decide

/-- Claim C9 as amended: the loop performs exactly
`⌊(49·384 + 57)/17⌋ = 1110` divstep iterations, a compile-time count using
the additive constant 57 (as `LEN_PRIME = 384 ≥ 46`), independent of the
input: the two-at-a-time while loop plus the conditional trailing step
amount to `invertDivstepCount` applications of the divstep primitive. -/
theorem claim_C9_amended :
    invertDivstepCount = (49 * LEN_PRIME + 57) / 17
      ∧ invertDivstepCount = 1110
      ∧ 46 ≤ LEN_PRIME
      ∧ ∀ a : ℕ, invertFinalState a = divstepLoop invertDivstepCount (invertInitState a) := by
  refine ⟨by decide, by decide, by decide, fun a => ?_⟩
  rw [invertFinalState_eq]
  have h1 : invertDivstepCount = ITERATIONS := by decide
  rw [h1]

/- ### Claim C10 -/

/-- Claim C10: `Scalar::invert_vartime` returns exactly the result of
`Field::invert`: the same carried value and the same validity flag. -/
theorem claim_C10 : ∀ a : ℕ, invert_vartime a = fieldInvert a := fun _ => rfl

/- ### Claim C7 -/

/-- Failing input for claim C7: converting the 384-bit integer 1 to a Scalar
via `TryFrom<U384>` and back via `From<Scalar> for U384` yields `RINV`, not
1: the `TryFrom` conversion stores the raw limbs without entering Montgomery
domain, while the way back divides by `R`. -/
theorem claim_C7_failing :
    (tryFromU384 1).map u384FromScalar = some RINV
      ∧ RINV ≠ 1 ∧ 1 < ORDER := by
  refine ⟨by decide, by decide, by decide⟩

/- ### Claim C6 -/

/-- Failing input for claim C6: the Scalar `ONE` (value 1) is reported high
by `is_high` although `1 ≤ ⌊n/2⌋`: `ct_gt` compares Montgomery
representations limb by limb and raises its output when any limb of `self`
exceeds the corresponding limb of `frac_modulus_2()`, which is not the
integer comparison the claim describes. -/
theorem claim_C6_failing :
    is_high Scalar.ONE = true ∧ fromMont Scalar.ONE = 1 ∧ ¬ (ORDER / 2 < 1) := by
  refine ⟨by decide, by decide, by decide⟩

/- ### The addition chain computes the exponent (n+1)/4 -/

/-- The residue of `R` in `ZMod ORDER`. -/
def Rz : ZMod ORDER := (R : ℕ)

/-- The residue of `RINV` in `ZMod ORDER`. -/
def RINVz : ZMod ORDER := (RINV : ℕ)

theorem Rz_mul_RINVz : Rz * RINVz = 1 := by
  have h := congrArg (fun m : ℕ => (m : ZMod ORDER)) RINV_spec
  simpa [Rz, RINVz, ZMod.natCast_mod] using h

theorem montMul_cast (a b : ℕ) :
    ((montMul a b : ℕ) : ZMod ORDER) = (a : ZMod ORDER) * (b : ZMod ORDER) * RINVz := by
  unfold montMul RINVz
  rw [ZMod.natCast_mod]
  push_cast
  ring

theorem montMul_pow {x y j k : ℕ} {u : ZMod ORDER}
    (hx : ((x : ℕ) : ZMod ORDER) = u ^ j * Rz)
    (hy : ((y : ℕ) : ZMod ORDER) = u ^ k * Rz) :
    ((montMul x y : ℕ) : ZMod ORDER) = u ^ (j + k) * Rz := by
  rw [montMul_cast, hx, hy]
  have h : u ^ j * Rz * (u ^ k * Rz) * RINVz = u ^ (j + k) * Rz * (Rz * RINVz) := by
    rw [pow_add]
    ring
  rw [h, Rz_mul_RINVz, mul_one]

theorem sqn_pow {x j : ℕ} {u : ZMod ORDER}
    (hx : ((x : ℕ) : ZMod ORDER) = u ^ j * Rz) :
    ∀ k, ((sqn x k : ℕ) : ZMod ORDER) = u ^ (j * 2 ^ k) * Rz := by
  intro k
  induction k generalizing x j with
  | zero => simpa using hx
  | succ k ih =>
    have hsq : ((montSquare x : ℕ) : ZMod ORDER) = u ^ (j + j) * Rz := by
      unfold montSquare
      exact montMul_pow hx hx
    have h1 := ih hsq
    have h2 : (j + j) * 2 ^ k = j * 2 ^ (k + 1) := by ring
    rw [show sqn x (k + 1) = sqn (montSquare x) k from rfl, h1, h2]

/-- The exponent `(n+1)/4` targeted by the square-root addition chain. -/
def SQRT_EXP : ℕ :=
  9850501549098619803069760025035903451269934817616361666986726319906914849778315892349739077038073728388608413485661

theorem SQRT_EXP_spec : 4 * SQRT_EXP = ORDER + 1 := by decide

theorem sqrtCandidate_pow {a : ℕ} {u : ZMod ORDER}
    (ha : ((a : ℕ) : ZMod ORDER) = u * Rz) :
    ((sqrtCandidate a : ℕ) : ZMod ORDER) = u ^ SQRT_EXP * Rz := by
  have h_t1 : ((t1 a : ℕ) : ZMod ORDER) = u ^ 1 * Rz := by
    unfold t1; rw [pow_one]; exact ha
  have h_t10 : ((t10 a : ℕ) : ZMod ORDER) = u ^ 2 * Rz := by
    unfold t10 montSquare
    rw [show (2 : ℕ) = 1 + 1 from by norm_num]
    exact montMul_pow h_t1 h_t1
  have h_t11 : ((t11 a : ℕ) : ZMod ORDER) = u ^ 3 * Rz := by
    unfold t11
    rw [show (3 : ℕ) = 1 + 2 from by norm_num]
    exact montMul_pow h_t1 h_t10
  have h_t101 : ((t101 a : ℕ) : ZMod ORDER) = u ^ 5 * Rz := by
    unfold t101
    rw [show (5 : ℕ) = 2 + 3 from by norm_num]
    exact montMul_pow h_t10 h_t11
  have h_t111 : ((t111 a : ℕ) : ZMod ORDER) = u ^ 7 * Rz := by
    unfold t111
    rw [show (7 : ℕ) = 2 + 5 from by norm_num]
    exact montMul_pow h_t10 h_t101
  have h_t1001 : ((t1001 a : ℕ) : ZMod ORDER) = u ^ 9 * Rz := by
    unfold t1001
    rw [show (9 : ℕ) = 2 + 7 from by norm_num]
    exact montMul_pow h_t10 h_t111
  have h_t1011 : ((t1011 a : ℕ) : ZMod ORDER) = u ^ 11 * Rz := by
    unfold t1011
    rw [show (11 : ℕ) = 2 + 9 from by norm_num]
    exact montMul_pow h_t10 h_t1001
  have h_t1101 : ((t1101 a : ℕ) : ZMod ORDER) = u ^ 13 * Rz := by
    unfold t1101
    rw [show (13 : ℕ) = 2 + 11 from by norm_num]
    exact montMul_pow h_t10 h_t1011
  have h_t1111 : ((t1111 a : ℕ) : ZMod ORDER) = u ^ 15 * Rz := by
    unfold t1111
    rw [show (15 : ℕ) = 2 + 13 from by norm_num]
    exact montMul_pow h_t10 h_t1101
  have h_t11110 : ((t11110 a : ℕ) : ZMod ORDER) = u ^ 30 * Rz := by
    unfold t11110 montSquare
    rw [show (30 : ℕ) = 15 + 15 from by norm_num]
    exact montMul_pow h_t1111 h_t1111
  have h_t11111 : ((t11111 a : ℕ) : ZMod ORDER) = u ^ 31 * Rz := by
    unfold t11111
    rw [show (31 : ℕ) = 1 + 30 from by norm_num]
    exact montMul_pow h_t1 h_t11110
  have h_t1111100 : ((t1111100 a : ℕ) : ZMod ORDER) = u ^ 124 * Rz := by
    unfold t1111100
    rw [show (124 : ℕ) = 31 * 2 ^ 2 from by norm_num]
    exact sqn_pow h_t11111 2
  have h_t11111000 : ((t11111000 a : ℕ) : ZMod ORDER) = u ^ 248 * Rz := by
    unfold t11111000 montSquare
    rw [show (248 : ℕ) = 124 + 124 from by norm_num]
    exact montMul_pow h_t1111100 h_t1111100
  have h_i14 : ((i14 a : ℕ) : ZMod ORDER) = u ^ 496 * Rz := by
    unfold i14 montSquare
    rw [show (496 : ℕ) = 248 + 248 from by norm_num]
    exact montMul_pow h_t11111000 h_t11111000
  have hh1 : ((sqn (i14 a) 5 : ℕ) : ZMod ORDER) = u ^ 15872 * Rz := by
    rw [show (15872 : ℕ) = 496 * 2 ^ 5 from by norm_num]
    exact sqn_pow h_i14 5
  have h_i20 : ((i20 a : ℕ) : ZMod ORDER) = u ^ 16368 * Rz := by
    unfold i20
    rw [show (16368 : ℕ) = 15872 + 496 from by norm_num]
    exact montMul_pow hh1 h_i14
  have hh2 : ((sqn (i20 a) 10 : ℕ) : ZMod ORDER) = u ^ 16760832 * Rz := by
    rw [show (16760832 : ℕ) = 16368 * 2 ^ 10 from by norm_num]
    exact sqn_pow h_i20 10
  have h_i31 : ((i31 a : ℕ) : ZMod ORDER) = u ^ 16777200 * Rz := by
    unfold i31
    rw [show (16777200 : ℕ) = 16760832 + 16368 from by norm_num]
    exact montMul_pow hh2 h_i20
  have hh3 : ((sqn (i31 a) 4 : ℕ) : ZMod ORDER) = u ^ 268435200 * Rz := by
    rw [show (268435200 : ℕ) = 16777200 * 2 ^ 4 from by norm_num]
    exact sqn_pow h_i31 4
  have hh4 : ((montMul (sqn (i31 a) 4) (t11111000 a) : ℕ) : ZMod ORDER) = u ^ 268435448 * Rz := by
    rw [show (268435448 : ℕ) = 268435200 + 248 from by norm_num]
    exact montMul_pow hh3 h_t11111000
  have hh5 : ((sqn (montMul (sqn (i31 a) 4) (t11111000 a)) 21 : ℕ) : ZMod ORDER) = u ^ 562949936644096 * Rz := by
    rw [show (562949936644096 : ℕ) = 268435448 * 2 ^ 21 from by norm_num]
    exact sqn_pow hh4 21
  have h_i58 : ((i58 a : ℕ) : ZMod ORDER) = u ^ 562949953421296 * Rz := by
    unfold i58
    rw [show (562949953421296 : ℕ) = 562949936644096 + 16777200 from by norm_num]
    exact montMul_pow hh5 h_i31
  have hh6 : ((sqn (i58 a) 3 : ℕ) : ZMod ORDER) = u ^ 4503599627370368 * Rz := by
    rw [show (4503599627370368 : ℕ) = 562949953421296 * 2 ^ 3 from by norm_num]
    exact sqn_pow h_i58 3
  have hh7 : ((montMul (sqn (i58 a) 3) (t1111100 a) : ℕ) : ZMod ORDER) = u ^ 4503599627370492 * Rz := by
    rw [show (4503599627370492 : ℕ) = 4503599627370368 + 124 from by norm_num]
    exact montMul_pow hh6 h_t1111100
  have hh8 : ((sqn (montMul (sqn (i58 a) 3) (t1111100 a)) 47 : ℕ) : ZMod ORDER) = u ^ 633825300114114137798398181376 * Rz := by
    rw [show (633825300114114137798398181376 : ℕ) = 4503599627370492 * 2 ^ 47 from by norm_num]
    exact sqn_pow hh7 47
  have h_i110 : ((i110 a : ℕ) : ZMod ORDER) = u ^ 633825300114114700748351602672 * Rz := by
    unfold i110
    rw [show (633825300114114700748351602672 : ℕ) = 633825300114114137798398181376 + 562949953421296 from by norm_num]
    exact montMul_pow hh8 h_i58
  have hh9 : ((sqn (i110 a) 95 : ℕ) : ZMod ORDER) = u ^ 25108406941546723055343157692196840364295307077107786448896 * Rz := by
    rw [show (25108406941546723055343157692196840364295307077107786448896 : ℕ) = 633825300114114700748351602672 * 2 ^ 95 from by norm_num]
    exact sqn_pow h_i110 95
  have hh10 : ((montMul (sqn (i110 a) 95) (i110 a) : ℕ) : ZMod ORDER) = u ^ 25108406941546723055343157692830665664409421777856138051568 * Rz := by
    rw [show (25108406941546723055343157692830665664409421777856138051568 : ℕ) = 25108406941546723055343157692196840364295307077107786448896 + 633825300114114700748351602672 from by norm_num]
    exact montMul_pow hh9 h_i110
  have h_x194 : ((x194 a : ℕ) : ZMod ORDER) = u ^ 25108406941546723055343157692830665664409421777856138051583 * Rz := by
    unfold x194
    rw [show (25108406941546723055343157692830665664409421777856138051583 : ℕ) = 25108406941546723055343157692830665664409421777856138051568 + 15 from by norm_num]
    exact montMul_pow hh10 h_t1111
  have hh11 : ((sqn (x194 a) 6 : ℕ) : ZMod ORDER) = u ^ 1606938044258990275541962092341162602522202993782792835301312 * Rz := by
    rw [show (1606938044258990275541962092341162602522202993782792835301312 : ℕ) = 25108406941546723055343157692830665664409421777856138051583 * 2 ^ 6 from by norm_num]
    exact sqn_pow h_x194 6
  have hh12 : ((montMul (sqn (x194 a) 6) (t111 a) : ℕ) : ZMod ORDER) = u ^ 1606938044258990275541962092341162602522202993782792835301319 * Rz := by
    rw [show (1606938044258990275541962092341162602522202993782792835301319 : ℕ) = 1606938044258990275541962092341162602522202993782792835301312 + 7 from by norm_num]
    exact montMul_pow hh11 h_t111
  have hh13 : ((sqn (montMul (sqn (x194 a) 6) (t111 a)) 3 : ℕ) : ZMod ORDER) = u ^ 12855504354071922204335696738729300820177623950262342682410552 * Rz := by
    rw [show (12855504354071922204335696738729300820177623950262342682410552 : ℕ) = 1606938044258990275541962092341162602522202993782792835301319 * 2 ^ 3 from by norm_num]
    exact sqn_pow hh12 3
  have hh14 : ((montMul (sqn (montMul (sqn (x194 a) 6) (t111 a)) 3) (t11 a) : ℕ) : ZMod ORDER) = u ^ 12855504354071922204335696738729300820177623950262342682410555 * Rz := by
    rw [show (12855504354071922204335696738729300820177623950262342682410555 : ℕ) = 12855504354071922204335696738729300820177623950262342682410552 + 3 from by norm_num]
    exact montMul_pow hh13 h_t11
  have h_i225 : ((i225 a : ℕ) : ZMod ORDER) = u ^ 1645504557321206042154969182557350504982735865633579863348551040 * Rz := by
    unfold i225
    rw [show (1645504557321206042154969182557350504982735865633579863348551040 : ℕ) = 12855504354071922204335696738729300820177623950262342682410555 * 2 ^ 7 from by norm_num]
    exact sqn_pow hh14 7
  have hh15 : ((montMul (t1101 a) (i225 a) : ℕ) : ZMod ORDER) = u ^ 1645504557321206042154969182557350504982735865633579863348551053 * Rz := by
    rw [show (1645504557321206042154969182557350504982735865633579863348551053 : ℕ) = 13 + 1645504557321206042154969182557350504982735865633579863348551040 from by norm_num]
    exact montMul_pow h_t1101 h_i225
  have hh16 : ((sqn (montMul (t1101 a) (i225 a)) 6 : ℕ) : ZMod ORDER) = u ^ 105312291668557186697918027683670432318895095400549111254307267392 * Rz := by
    rw [show (105312291668557186697918027683670432318895095400549111254307267392 : ℕ) = 1645504557321206042154969182557350504982735865633579863348551053 * 2 ^ 6 from by norm_num]
    exact sqn_pow hh15 6
  have hh17 : ((montMul (sqn (montMul (t1101 a) (i225 a)) 6) (t1101 a) : ℕ) : ZMod ORDER) = u ^ 105312291668557186697918027683670432318895095400549111254307267405 * Rz := by
    rw [show (105312291668557186697918027683670432318895095400549111254307267405 : ℕ) = 105312291668557186697918027683670432318895095400549111254307267392 + 13 from by norm_num]
    exact montMul_pow hh16 h_t1101
  have hh18 : ((montSquare (montMul (sqn (montMul (t1101 a) (i225 a)) 6) (t1101 a)) : ℕ) : ZMod ORDER) = u ^ 210624583337114373395836055367340864637790190801098222508614534810 * Rz := by
    unfold montSquare
    rw [show (210624583337114373395836055367340864637790190801098222508614534810 : ℕ) = 105312291668557186697918027683670432318895095400549111254307267405 + 105312291668557186697918027683670432318895095400549111254307267405 from by norm_num]
    exact montMul_pow hh17 hh17
  have h_i235 : ((i235 a : ℕ) : ZMod ORDER) = u ^ 210624583337114373395836055367340864637790190801098222508614534811 * Rz := by
    unfold i235
    rw [show (210624583337114373395836055367340864637790190801098222508614534811 : ℕ) = 210624583337114373395836055367340864637790190801098222508614534810 + 1 from by norm_num]
    exact montMul_pow hh18 h_t1
  have hh19 : ((sqn (i235 a) 11 : ℕ) : ZMod ORDER) = u ^ 431359146674410236714672241392314090778194310760649159697642567292928 * Rz := by
    rw [show (431359146674410236714672241392314090778194310760649159697642567292928 : ℕ) = 210624583337114373395836055367340864637790190801098222508614534811 * 2 ^ 11 from by norm_num]
    exact sqn_pow h_i235 11
  have hh20 : ((montMul (sqn (i235 a) 11) (t11111 a) : ℕ) : ZMod ORDER) = u ^ 431359146674410236714672241392314090778194310760649159697642567292959 * Rz := by
    rw [show (431359146674410236714672241392314090778194310760649159697642567292959 : ℕ) = 431359146674410236714672241392314090778194310760649159697642567292928 + 31 from by norm_num]
    exact montMul_pow hh19 h_t11111
  have hh21 : ((sqn (montMul (sqn (i235 a) 11) (t11111 a)) 2 : ℕ) : ZMod ORDER) = u ^ 1725436586697640946858688965569256363112777243042596638790570269171836 * Rz := by
    rw [show (1725436586697640946858688965569256363112777243042596638790570269171836 : ℕ) = 431359146674410236714672241392314090778194310760649159697642567292959 * 2 ^ 2 from by norm_num]
    exact sqn_pow hh20 2
  have hh22 : ((montMul (sqn (montMul (sqn (i235 a) 11) (t11111 a)) 2) (t1 a) : ℕ) : ZMod ORDER) = u ^ 1725436586697640946858688965569256363112777243042596638790570269171837 * Rz := by
    rw [show (1725436586697640946858688965569256363112777243042596638790570269171837 : ℕ) = 1725436586697640946858688965569256363112777243042596638790570269171836 + 1 from by norm_num]
    exact montMul_pow hh21 h_t1
  have h_i258 : ((i258 a : ℕ) : ZMod ORDER) = u ^ 441711766194596082395824375185729628956870974218904739530385988907990272 * Rz := by
    unfold i258
    rw [show (441711766194596082395824375185729628956870974218904739530385988907990272 : ℕ) = 1725436586697640946858688965569256363112777243042596638790570269171837 * 2 ^ 8 from by norm_num]
    exact sqn_pow hh22 8
  have hh23 : ((montMul (t1101 a) (i258 a) : ℕ) : ZMod ORDER) = u ^ 441711766194596082395824375185729628956870974218904739530385988907990285 * Rz := by
    rw [show (441711766194596082395824375185729628956870974218904739530385988907990285 : ℕ) = 13 + 441711766194596082395824375185729628956870974218904739530385988907990272 from by norm_num]
    exact montMul_pow h_t1101 h_i258
  have hh24 : ((sqn (montMul (t1101 a) (i258 a)) 2 : ℕ) : ZMod ORDER) = u ^ 1766847064778384329583297500742918515827483896875618958121543955631961140 * Rz := by
    rw [show (1766847064778384329583297500742918515827483896875618958121543955631961140 : ℕ) = 441711766194596082395824375185729628956870974218904739530385988907990285 * 2 ^ 2 from by norm_num]
    exact sqn_pow hh23 2
  have hh25 : ((montMul (sqn (montMul (t1101 a) (i258 a)) 2) (t11 a) : ℕ) : ZMod ORDER) = u ^ 1766847064778384329583297500742918515827483896875618958121543955631961143 * Rz := by
    rw [show (1766847064778384329583297500742918515827483896875618958121543955631961143 : ℕ) = 1766847064778384329583297500742918515827483896875618958121543955631961140 + 3 from by norm_num]
    exact montMul_pow hh24 h_t11
  have hh26 : ((sqn (montMul (sqn (montMul (t1101 a) (i258 a)) 2) (t11 a)) 6 : ℕ) : ZMod ORDER) = u ^ 113078212145816597093331040047546785012958969400039613319778813160445513152 * Rz := by
    rw [show (113078212145816597093331040047546785012958969400039613319778813160445513152 : ℕ) = 1766847064778384329583297500742918515827483896875618958121543955631961143 * 2 ^ 6 from by norm_num]
    exact sqn_pow hh25 6
  have h_i269 : ((i269 a : ℕ) : ZMod ORDER) = u ^ 113078212145816597093331040047546785012958969400039613319778813160445513163 * Rz := by
    unfold i269
    rw [show (113078212145816597093331040047546785012958969400039613319778813160445513163 : ℕ) = 113078212145816597093331040047546785012958969400039613319778813160445513152 + 11 from by norm_num]
    exact montMul_pow hh26 h_t1011
  have hh27 : ((sqn (i269 a) 4 : ℕ) : ZMod ORDER) = u ^ 1809251394333065553493296640760748560207343510400633813116461010567128210608 * Rz := by
    rw [show (1809251394333065553493296640760748560207343510400633813116461010567128210608 : ℕ) = 113078212145816597093331040047546785012958969400039613319778813160445513163 * 2 ^ 4 from by norm_num]
    exact sqn_pow h_i269 4
  have hh28 : ((montMul (sqn (i269 a) 4) (t111 a) : ℕ) : ZMod ORDER) = u ^ 1809251394333065553493296640760748560207343510400633813116461010567128210615 * Rz := by
    rw [show (1809251394333065553493296640760748560207343510400633813116461010567128210615 : ℕ) = 1809251394333065553493296640760748560207343510400633813116461010567128210608 + 7 from by norm_num]
    exact montMul_pow hh27 h_t111
  have hh29 : ((sqn (montMul (sqn (i269 a) 4) (t111 a)) 6 : ℕ) : ZMod ORDER) = u ^ 115792089237316195423570985008687907853269984665640564039453504676296205479360 * Rz := by
    rw [show (115792089237316195423570985008687907853269984665640564039453504676296205479360 : ℕ) = 1809251394333065553493296640760748560207343510400633813116461010567128210615 * 2 ^ 6 from by norm_num]
    exact sqn_pow hh28 6
  have hh30 : ((montMul (sqn (montMul (sqn (i269 a) 4) (t111 a)) 6) (t11111 a) : ℕ) : ZMod ORDER) = u ^ 115792089237316195423570985008687907853269984665640564039453504676296205479391 * Rz := by
    rw [show (115792089237316195423570985008687907853269984665640564039453504676296205479391 : ℕ) = 115792089237316195423570985008687907853269984665640564039453504676296205479360 + 31 from by norm_num]
    exact montMul_pow hh29 h_t11111
  have h_i286 : ((i286 a : ℕ) : ZMod ORDER) = u ^ 3705346855594118253554271520278013051304639509300498049262512149641478575340512 * Rz := by
    unfold i286
    rw [show (3705346855594118253554271520278013051304639509300498049262512149641478575340512 : ℕ) = 115792089237316195423570985008687907853269984665640564039453504676296205479391 * 2 ^ 5 from by norm_num]
    exact sqn_pow hh30 5
  have hh31 : ((montMul (t1011 a) (i286 a) : ℕ) : ZMod ORDER) = u ^ 3705346855594118253554271520278013051304639509300498049262512149641478575340523 * Rz := by
    rw [show (3705346855594118253554271520278013051304639509300498049262512149641478575340523 : ℕ) = 11 + 3705346855594118253554271520278013051304639509300498049262512149641478575340512 from by norm_num]
    exact montMul_pow h_t1011 h_i286
  have hh32 : ((sqn (montMul (t1011 a) (i286 a)) 10 : ℕ) : ZMod ORDER) = u ^ 3794275180128377091639574036764685364535950857523710002444812441232874061148695552 * Rz := by
    rw [show (3794275180128377091639574036764685364535950857523710002444812441232874061148695552 : ℕ) = 3705346855594118253554271520278013051304639509300498049262512149641478575340523 * 2 ^ 10 from by norm_num]
    exact sqn_pow hh31 10
  have hh33 : ((montMul (sqn (montMul (t1011 a) (i286 a)) 10) (t1101 a) : ℕ) : ZMod ORDER) = u ^ 3794275180128377091639574036764685364535950857523710002444812441232874061148695565 * Rz := by
    rw [show (3794275180128377091639574036764685364535950857523710002444812441232874061148695565 : ℕ) = 3794275180128377091639574036764685364535950857523710002444812441232874061148695552 + 13 from by norm_num]
    exact montMul_pow hh32 h_t1101
  have hh34 : ((sqn (montMul (sqn (montMul (t1011 a) (i286 a)) 10) (t1101 a)) 9 : ℕ) : ZMod ORDER) = u ^ 1942668892225729070919461906823518906642406839052139521251743969911231519308132129280 * Rz := by
    rw [show (1942668892225729070919461906823518906642406839052139521251743969911231519308132129280 : ℕ) = 3794275180128377091639574036764685364535950857523710002444812441232874061148695565 * 2 ^ 9 from by norm_num]
    exact sqn_pow hh33 9
  have h_i308 : ((i308 a : ℕ) : ZMod ORDER) = u ^ 1942668892225729070919461906823518906642406839052139521251743969911231519308132129293 * Rz := by
    unfold i308
    rw [show (1942668892225729070919461906823518906642406839052139521251743969911231519308132129293 : ℕ) = 1942668892225729070919461906823518906642406839052139521251743969911231519308132129280 + 13 from by norm_num]
    exact montMul_pow hh34 h_t1101
  have hh35 : ((sqn (i308 a) 4 : ℕ) : ZMod ORDER) = u ^ 31082702275611665134711390509176302506278509424834232340027903518579704308930114068688 * Rz := by
    rw [show (31082702275611665134711390509176302506278509424834232340027903518579704308930114068688 : ℕ) = 1942668892225729070919461906823518906642406839052139521251743969911231519308132129293 * 2 ^ 4 from by norm_num]
    exact sqn_pow h_i308 4
  have hh36 : ((montMul (sqn (i308 a) 4) (t1011 a) : ℕ) : ZMod ORDER) = u ^ 31082702275611665134711390509176302506278509424834232340027903518579704308930114068699 * Rz := by
    rw [show (31082702275611665134711390509176302506278509424834232340027903518579704308930114068699 : ℕ) = 31082702275611665134711390509176302506278509424834232340027903518579704308930114068688 + 11 from by norm_num]
    exact montMul_pow hh35 h_t1011
  have hh37 : ((sqn (montMul (sqn (i308 a) 4) (t1011 a)) 6 : ℕ) : ZMod ORDER) = u ^ 1989292945639146568621528992587283360401824603189390869761785825189101075771527300396736 * Rz := by
    rw [show (1989292945639146568621528992587283360401824603189390869761785825189101075771527300396736 : ℕ) = 31082702275611665134711390509176302506278509424834232340027903518579704308930114068699 * 2 ^ 6 from by norm_num]
    exact sqn_pow hh36 6
  have hh38 : ((montMul (sqn (montMul (sqn (i308 a) 4) (t1011 a)) 6) (t1001 a) : ℕ) : ZMod ORDER) = u ^ 1989292945639146568621528992587283360401824603189390869761785825189101075771527300396745 * Rz := by
    rw [show (1989292945639146568621528992587283360401824603189390869761785825189101075771527300396745 : ℕ) = 1989292945639146568621528992587283360401824603189390869761785825189101075771527300396736 + 9 from by norm_num]
    exact montMul_pow hh37 h_t1001
  have h_i323 : ((i323 a : ℕ) : ZMod ORDER) = u ^ 15914343565113172548972231940698266883214596825515126958094286601512808606172218403173960 * Rz := by
    unfold i323
    rw [show (15914343565113172548972231940698266883214596825515126958094286601512808606172218403173960 : ℕ) = 1989292945639146568621528992587283360401824603189390869761785825189101075771527300396745 * 2 ^ 3 from by norm_num]
    exact sqn_pow hh38 3
  have hh39 : ((montMul (t1 a) (i323 a) : ℕ) : ZMod ORDER) = u ^ 15914343565113172548972231940698266883214596825515126958094286601512808606172218403173961 * Rz := by
    rw [show (15914343565113172548972231940698266883214596825515126958094286601512808606172218403173961 : ℕ) = 1 + 15914343565113172548972231940698266883214596825515126958094286601512808606172218403173960 from by norm_num]
    exact montMul_pow h_t1 h_i323
  have hh40 : ((sqn (montMul (t1 a) (i323 a)) 7 : ℕ) : ZMod ORDER) = u ^ 2037035976334486086268445688409378161051468393665936250636068684993639501590043955606267008 * Rz := by
    rw [show (2037035976334486086268445688409378161051468393665936250636068684993639501590043955606267008 : ℕ) = 15914343565113172548972231940698266883214596825515126958094286601512808606172218403173961 * 2 ^ 7 from by norm_num]
    exact sqn_pow hh39 7
  have hh41 : ((montMul (sqn (montMul (t1 a) (i323 a)) 7) (t1011 a) : ℕ) : ZMod ORDER) = u ^ 2037035976334486086268445688409378161051468393665936250636068684993639501590043955606267019 * Rz := by
    rw [show (2037035976334486086268445688409378161051468393665936250636068684993639501590043955606267019 : ℕ) = 2037035976334486086268445688409378161051468393665936250636068684993639501590043955606267008 + 11 from by norm_num]
    exact montMul_pow hh40 h_t1011
  have hh42 : ((sqn (montMul (sqn (montMul (t1 a) (i323 a)) 7) (t1011 a)) 7 : ℕ) : ZMod ORDER) = u ^ 260740604970814219042361048116400404614587954389239840081416791679185856203525626317602178432 * Rz := by
    rw [show (260740604970814219042361048116400404614587954389239840081416791679185856203525626317602178432 : ℕ) = 2037035976334486086268445688409378161051468393665936250636068684993639501590043955606267019 * 2 ^ 7 from by norm_num]
    exact sqn_pow hh41 7
  have h_i340 : ((i340 a : ℕ) : ZMod ORDER) = u ^ 260740604970814219042361048116400404614587954389239840081416791679185856203525626317602178437 * Rz := by
    unfold i340
    rw [show (260740604970814219042361048116400404614587954389239840081416791679185856203525626317602178437 : ℕ) = 260740604970814219042361048116400404614587954389239840081416791679185856203525626317602178432 + 5 from by norm_num]
    exact montMul_pow hh42 h_t101
  have hh43 : ((sqn (i340 a) 5 : ℕ) : ZMod ORDER) = u ^ 8343699359066055009355553539724812947666814540455674882605337333733947398512820042163269709984 * Rz := by
    rw [show (8343699359066055009355553539724812947666814540455674882605337333733947398512820042163269709984 : ℕ) = 260740604970814219042361048116400404614587954389239840081416791679185856203525626317602178437 * 2 ^ 5 from by norm_num]
    exact sqn_pow h_i340 5
  have hh44 : ((montMul (sqn (i340 a) 5) (t111 a) : ℕ) : ZMod ORDER) = u ^ 8343699359066055009355553539724812947666814540455674882605337333733947398512820042163269709991 * Rz := by
    rw [show (8343699359066055009355553539724812947666814540455674882605337333733947398512820042163269709991 : ℕ) = 8343699359066055009355553539724812947666814540455674882605337333733947398512820042163269709984 + 7 from by norm_num]
    exact montMul_pow hh43 h_t111
  have hh45 : ((sqn (montMul (sqn (i340 a) 5) (t111 a)) 5 : ℕ) : ZMod ORDER) = u ^ 266998379490113760299377713271194014325338065294581596243370794679486316752410241349224630719712 * Rz := by
    rw [show (266998379490113760299377713271194014325338065294581596243370794679486316752410241349224630719712 : ℕ) = 8343699359066055009355553539724812947666814540455674882605337333733947398512820042163269709991 * 2 ^ 5 from by norm_num]
    exact sqn_pow hh44 5
  have hh46 : ((montMul (sqn (montMul (sqn (i340 a) 5) (t111 a)) 5) (t1111 a) : ℕ) : ZMod ORDER) = u ^ 266998379490113760299377713271194014325338065294581596243370794679486316752410241349224630719727 * Rz := by
    rw [show (266998379490113760299377713271194014325338065294581596243370794679486316752410241349224630719727 : ℕ) = 266998379490113760299377713271194014325338065294581596243370794679486316752410241349224630719712 + 15 from by norm_num]
    exact montMul_pow hh45 h_t1111
  have h_i357 : ((i357 a : ℕ) : ZMod ORDER) = u ^ 8543948143683640329580086824678208458410818089426611079787865429743562136077127723175188183031264 * Rz := by
    unfold i357
    rw [show (8543948143683640329580086824678208458410818089426611079787865429743562136077127723175188183031264 : ℕ) = 266998379490113760299377713271194014325338065294581596243370794679486316752410241349224630719727 * 2 ^ 5 from by norm_num]
    exact sqn_pow hh46 5
  have hh47 : ((montMul (t1011 a) (i357 a) : ℕ) : ZMod ORDER) = u ^ 8543948143683640329580086824678208458410818089426611079787865429743562136077127723175188183031275 * Rz := by
    rw [show (8543948143683640329580086824678208458410818089426611079787865429743562136077127723175188183031275 : ℕ) = 11 + 8543948143683640329580086824678208458410818089426611079787865429743562136077127723175188183031264 from by norm_num]
    exact montMul_pow h_t1011 h_i357
  have hh48 : ((sqn (montMul (t1011 a) (i357 a)) 4 : ℕ) : ZMod ORDER) = u ^ 136703170298938245273281389194851335334573089430825777276605846875896994177234043570803010928500400 * Rz := by
    rw [show (136703170298938245273281389194851335334573089430825777276605846875896994177234043570803010928500400 : ℕ) = 8543948143683640329580086824678208458410818089426611079787865429743562136077127723175188183031275 * 2 ^ 4 from by norm_num]
    exact sqn_pow hh47 4
  have hh49 : ((montMul (sqn (montMul (t1011 a) (i357 a)) 4) (t1011 a) : ℕ) : ZMod ORDER) = u ^ 136703170298938245273281389194851335334573089430825777276605846875896994177234043570803010928500411 * Rz := by
    rw [show (136703170298938245273281389194851335334573089430825777276605846875896994177234043570803010928500411 : ℕ) = 136703170298938245273281389194851335334573089430825777276605846875896994177234043570803010928500400 + 11 from by norm_num]
    exact montMul_pow hh48 h_t1011
  have hh50 : ((sqn (montMul (sqn (montMul (t1011 a) (i357 a)) 4) (t1011 a)) 5 : ℕ) : ZMod ORDER) = u ^ 4374501449566023848745004454235242730706338861786424872851387100028703813671489394265696349712013152 * Rz := by
    rw [show (4374501449566023848745004454235242730706338861786424872851387100028703813671489394265696349712013152 : ℕ) = 136703170298938245273281389194851335334573089430825777276605846875896994177234043570803010928500411 * 2 ^ 5 from by norm_num]
    exact sqn_pow hh49 5
  have h_i369 : ((i369 a : ℕ) : ZMod ORDER) = u ^ 4374501449566023848745004454235242730706338861786424872851387100028703813671489394265696349712013159 * Rz := by
    unfold i369
    rw [show (4374501449566023848745004454235242730706338861786424872851387100028703813671489394265696349712013159 : ℕ) = 4374501449566023848745004454235242730706338861786424872851387100028703813671489394265696349712013152 + 7 from by norm_num]
    exact montMul_pow hh50 h_t111
  have hh51 : ((sqn (i369 a) 3 : ℕ) : ZMod ORDER) = u ^ 34996011596528190789960035633881941845650710894291398982811096800229630509371915154125570797696105272 * Rz := by
    rw [show (34996011596528190789960035633881941845650710894291398982811096800229630509371915154125570797696105272 : ℕ) = 4374501449566023848745004454235242730706338861786424872851387100028703813671489394265696349712013159 * 2 ^ 3 from by norm_num]
    exact sqn_pow h_i369 3
  have hh52 : ((montMul (sqn (i369 a) 3) (t11 a) : ℕ) : ZMod ORDER) = u ^ 34996011596528190789960035633881941845650710894291398982811096800229630509371915154125570797696105275 * Rz := by
    rw [show (34996011596528190789960035633881941845650710894291398982811096800229630509371915154125570797696105275 : ℕ) = 34996011596528190789960035633881941845650710894291398982811096800229630509371915154125570797696105272 + 3 from by norm_num]
    exact montMul_pow hh51 h_t11
  have hh53 : ((sqn (montMul (sqn (i369 a) 3) (t11 a)) 7 : ℕ) : ZMod ORDER) = u ^ 4479489484355608421114884561136888556243290994469299069799820390429392705199605139728073062105101475200 * Rz := by
    rw [show (4479489484355608421114884561136888556243290994469299069799820390429392705199605139728073062105101475200 : ℕ) = 34996011596528190789960035633881941845650710894291398982811096800229630509371915154125570797696105275 * 2 ^ 7 from by norm_num]
    exact sqn_pow hh52 7
  have hh54 : ((montMul (sqn (montMul (sqn (i369 a) 3) (t11 a)) 7) (t11 a) : ℕ) : ZMod ORDER) = u ^ 4479489484355608421114884561136888556243290994469299069799820390429392705199605139728073062105101475203 * Rz := by
    rw [show (4479489484355608421114884561136888556243290994469299069799820390429392705199605139728073062105101475203 : ℕ) = 4479489484355608421114884561136888556243290994469299069799820390429392705199605139728073062105101475200 + 3 from by norm_num]
    exact montMul_pow hh53 h_t11
  have h_i387 : ((i387 a : ℕ) : ZMod ORDER) = u ^ 286687326998758938951352611912760867599570623646035140467188504987481133132774728942596675974726494412992 * Rz := by
    unfold i387
    rw [show (286687326998758938951352611912760867599570623646035140467188504987481133132774728942596675974726494412992 : ℕ) = 4479489484355608421114884561136888556243290994469299069799820390429392705199605139728073062105101475203 * 2 ^ 6 from by norm_num]
    exact sqn_pow hh54 6
  have hh55 : ((montMul (t1011 a) (i387 a) : ℕ) : ZMod ORDER) = u ^ 286687326998758938951352611912760867599570623646035140467188504987481133132774728942596675974726494413003 * Rz := by
    rw [show (286687326998758938951352611912760867599570623646035140467188504987481133132774728942596675974726494413003 : ℕ) = 11 + 286687326998758938951352611912760867599570623646035140467188504987481133132774728942596675974726494412992 from by norm_num]
    exact montMul_pow h_t1011 h_i387
  have hh56 : ((sqn (montMul (t1011 a) (i387 a)) 4 : ℕ) : ZMod ORDER) = u ^ 4586997231980143023221641790604173881593129978336562247475016079799698130124395663081546815595623910608048 * Rz := by
    rw [show (4586997231980143023221641790604173881593129978336562247475016079799698130124395663081546815595623910608048 : ℕ) = 286687326998758938951352611912760867599570623646035140467188504987481133132774728942596675974726494413003 * 2 ^ 4 from by norm_num]
    exact sqn_pow hh55 4
  have hh57 : ((montMul (sqn (montMul (t1011 a) (i387 a)) 4) (t101 a) : ℕ) : ZMod ORDER) = u ^ 4586997231980143023221641790604173881593129978336562247475016079799698130124395663081546815595623910608053 * Rz := by
    rw [show (4586997231980143023221641790604173881593129978336562247475016079799698130124395663081546815595623910608053 : ℕ) = 4586997231980143023221641790604173881593129978336562247475016079799698130124395663081546815595623910608048 + 5 from by norm_num]
    exact montMul_pow hh56 h_t101
  have hh58 : ((sqn (montMul (sqn (montMul (t1011 a) (i387 a)) 4) (t101 a)) 3 : ℕ) : ZMod ORDER) = u ^ 36695977855841144185773134324833391052745039826692497979800128638397585040995165304652374524764991284864424 * Rz := by
    rw [show (36695977855841144185773134324833391052745039826692497979800128638397585040995165304652374524764991284864424 : ℕ) = 4586997231980143023221641790604173881593129978336562247475016079799698130124395663081546815595623910608053 * 2 ^ 3 from by norm_num]
    exact sqn_pow hh57 3
  have h_i397 : ((i397 a : ℕ) : ZMod ORDER) = u ^ 36695977855841144185773134324833391052745039826692497979800128638397585040995165304652374524764991284864427 * Rz := by
    unfold i397
    rw [show (36695977855841144185773134324833391052745039826692497979800128638397585040995165304652374524764991284864427 : ℕ) = 36695977855841144185773134324833391052745039826692497979800128638397585040995165304652374524764991284864424 + 3 from by norm_num]
    exact montMul_pow hh58 h_t11
  have hh59 : ((sqn (i397 a) 4 : ℕ) : ZMod ORDER) = u ^ 587135645693458306972370149197334256843920637227079967676802058214361360655922644874437992396239860557830832 * Rz := by
    rw [show (587135645693458306972370149197334256843920637227079967676802058214361360655922644874437992396239860557830832 : ℕ) = 36695977855841144185773134324833391052745039826692497979800128638397585040995165304652374524764991284864427 * 2 ^ 4 from by norm_num]
    exact sqn_pow h_i397 4
  have hh60 : ((montMul (sqn (i397 a) 4) (t11 a) : ℕ) : ZMod ORDER) = u ^ 587135645693458306972370149197334256843920637227079967676802058214361360655922644874437992396239860557830835 * Rz := by
    rw [show (587135645693458306972370149197334256843920637227079967676802058214361360655922644874437992396239860557830835 : ℕ) = 587135645693458306972370149197334256843920637227079967676802058214361360655922644874437992396239860557830832 + 3 from by norm_num]
    exact montMul_pow hh59 h_t11
  have hh61 : ((sqn (montMul (sqn (i397 a) 4) (t11 a)) 4 : ℕ) : ZMod ORDER) = u ^ 9394170331095332911557922387157348109502730195633279482828832931429781770494762317991007878339837768925293360 * Rz := by
    rw [show (9394170331095332911557922387157348109502730195633279482828832931429781770494762317991007878339837768925293360 : ℕ) = 587135645693458306972370149197334256843920637227079967676802058214361360655922644874437992396239860557830835 * 2 ^ 4 from by norm_num]
    exact sqn_pow hh60 4
  have hh62 : ((montMul (sqn (montMul (sqn (i397 a) 4) (t11 a)) 4) (t11 a) : ℕ) : ZMod ORDER) = u ^ 9394170331095332911557922387157348109502730195633279482828832931429781770494762317991007878339837768925293363 * Rz := by
    rw [show (9394170331095332911557922387157348109502730195633279482828832931429781770494762317991007878339837768925293363 : ℕ) = 9394170331095332911557922387157348109502730195633279482828832931429781770494762317991007878339837768925293360 + 3 from by norm_num]
    exact montMul_pow hh61 h_t11
  have h_i413 : ((i413 a : ℕ) : ZMod ORDER) = u ^ 601226901190101306339707032778070279008174732520529886901045307611506033311664788351424504213749617211218775232 * Rz := by
    unfold i413
    rw [show (601226901190101306339707032778070279008174732520529886901045307611506033311664788351424504213749617211218775232 : ℕ) = 9394170331095332911557922387157348109502730195633279482828832931429781770494762317991007878339837768925293363 * 2 ^ 6 from by norm_num]
    exact sqn_pow hh62 6
  have hh63 : ((montMul (t101 a) (i413 a) : ℕ) : ZMod ORDER) = u ^ 601226901190101306339707032778070279008174732520529886901045307611506033311664788351424504213749617211218775237 * Rz := by
    rw [show (601226901190101306339707032778070279008174732520529886901045307611506033311664788351424504213749617211218775237 : ℕ) = 5 + 601226901190101306339707032778070279008174732520529886901045307611506033311664788351424504213749617211218775232 from by norm_num]
    exact montMul_pow h_t101 h_i413
  have hh64 : ((sqn (montMul (t101 a) (i413 a)) 5 : ℕ) : ZMod ORDER) = u ^ 19239260838083241802870625048898248928261591440656956380833449843568193065973273227245584134839987750759000807584 * Rz := by
    rw [show (19239260838083241802870625048898248928261591440656956380833449843568193065973273227245584134839987750759000807584 : ℕ) = 601226901190101306339707032778070279008174732520529886901045307611506033311664788351424504213749617211218775237 * 2 ^ 5 from by norm_num]
    exact sqn_pow hh63 5
  have hh65 : ((montMul (sqn (montMul (t101 a) (i413 a)) 5) (t101 a) : ℕ) : ZMod ORDER) = u ^ 19239260838083241802870625048898248928261591440656956380833449843568193065973273227245584134839987750759000807589 * Rz := by
    rw [show (19239260838083241802870625048898248928261591440656956380833449843568193065973273227245584134839987750759000807589 : ℕ) = 19239260838083241802870625048898248928261591440656956380833449843568193065973273227245584134839987750759000807584 + 5 from by norm_num]
    exact montMul_pow hh64 h_t101
  have hh66 : ((sqn (montMul (sqn (montMul (t101 a) (i413 a)) 5) (t101 a)) 6 : ℕ) : ZMod ORDER) = u ^ 1231312693637327475383720003129487931408741852202045208373340789988364356222289486543717384629759216048576051685696 * Rz := by
    rw [show (1231312693637327475383720003129487931408741852202045208373340789988364356222289486543717384629759216048576051685696 : ℕ) = 19239260838083241802870625048898248928261591440656956380833449843568193065973273227245584134839987750759000807589 * 2 ^ 6 from by norm_num]
    exact sqn_pow hh65 6
  have h_i427 : ((i427 a : ℕ) : ZMod ORDER) = u ^ 1231312693637327475383720003129487931408741852202045208373340789988364356222289486543717384629759216048576051685707 * Rz := by
    unfold i427
    rw [show (1231312693637327475383720003129487931408741852202045208373340789988364356222289486543717384629759216048576051685707 : ℕ) = 1231312693637327475383720003129487931408741852202045208373340789988364356222289486543717384629759216048576051685696 + 11 from by norm_num]
    exact montMul_pow hh66 h_t1011
  have hh67 : ((sqn (i427 a) 3 : ℕ) : ZMod ORDER) = u ^ 9850501549098619803069760025035903451269934817616361666986726319906914849778315892349739077038073728388608413485656 * Rz := by
    rw [show (9850501549098619803069760025035903451269934817616361666986726319906914849778315892349739077038073728388608413485656 : ℕ) = 1231312693637327475383720003129487931408741852202045208373340789988364356222289486543717384629759216048576051685707 * 2 ^ 3 from by norm_num]
    exact sqn_pow h_i427 3
  have h_sqrtCandidate : ((sqrtCandidate a : ℕ) : ZMod ORDER) = u ^ 9850501549098619803069760025035903451269934817616361666986726319906914849778315892349739077038073728388608413485661 * Rz := by
    unfold sqrtCandidate
    rw [show (9850501549098619803069760025035903451269934817616361666986726319906914849778315892349739077038073728388608413485661 : ℕ) = 9850501549098619803069760025035903451269934817616361666986726319906914849778315892349739077038073728388608413485656 + 5 from by norm_num]
    exact montMul_pow hh67 h_t101
  rw [show SQRT_EXP = (9850501549098619803069760025035903451269934817616361666986726319906914849778315892349739077038073728388608413485661 : ℕ) from by norm_num [SQRT_EXP]]
  exact h_sqrtCandidate

/- ### Fast modular exponentiation (for the primality certificate) -/

/-- Binary modular exponentiation, driven by a fuel argument that dominates
the exponent. -/
def powModAux (m a : ℕ) : ℕ → ℕ → ℕ
  | 0, _ => 1 % m
  | fuel + 1, k =>
    if k = 0 then 1 % m
    else
      let h := powModAux m (a * a % m) fuel (k / 2)
      if k % 2 = 1 then h * a % m else h

/-- The function `powMod m a k` is `a ^ k mod m`, computed by binary exponentiation. -/
def powMod (m a k : ℕ) : ℕ := powModAux m a k k

theorem powModAux_correct (m : ℕ) :
    ∀ fuel k a, k ≤ fuel → powModAux m a fuel k = a ^ k % m := by
  intro fuel
  induction fuel with
  | zero =>
    intro k a hk
    interval_cases k
    simp [powModAux]
  | succ fuel ih =>
    intro k a hk
    by_cases h0 : k = 0
    · subst h0
      simp [powModAux]
    · have hk2 : k / 2 ≤ fuel := by omega
      have hh := ih (k / 2) (a * a % m) hk2
      rw [powModAux]
      rw [if_neg h0]
      simp only [hh]
      have hsq : (a * a % m) ^ (k / 2) % m = (a * a) ^ (k / 2) % m :=
        (Nat.pow_mod (a * a) (k / 2) m).symm
      by_cases hodd : k % 2 = 1
      · rw [if_pos hodd]
        rw [hsq, Nat.mod_mul_mod]
        have hexp : (a * a) ^ (k / 2) * a = a ^ k := by
          rw [← pow_two, ← pow_mul, ← pow_succ]
          congr 1
          omega
        rw [hexp]
      · rw [if_neg hodd]
        rw [hsq]
        have hexp : (a * a) ^ (k / 2) = a ^ k := by
          rw [← pow_two, ← pow_mul]
          congr 1
          omega
        rw [hexp]

theorem powMod_correct (m a k : ℕ) : powMod m a k = a ^ k % m :=
  powModAux_correct m k k a le_rfl

theorem powMod_one_iff {p a k : ℕ} (hp : 1 < p) :
    powMod p a k = 1 ↔ ((a : ZMod p)) ^ k = 1 := by
  rw [powMod_correct]
  rw [show (1 : ZMod p) = ((1 : ℕ) : ZMod p) by norm_cast]
  rw [← Nat.cast_pow, ZMod.natCast_eq_natCast_iff]
  unfold Nat.ModEq
  rw [Nat.mod_eq_of_lt hp]

/-- Lucas primality certificate, phrased over `powMod` so that all
hypotheses are kernel-checkable on explicit numbers. -/
theorem lucas_cert (p g : ℕ) (hp : 1 < p) (factors : List ℕ)
    (h1 : powMod p g (p - 1) = 1)
    (hcover : ∀ q : ℕ, q.Prime → q ∣ p - 1 → q ∈ factors)
    (h2 : ∀ q ∈ factors, powMod p g ((p - 1) / q) ≠ 1) : p.Prime := by
  apply lucas_primality p (g : ZMod p)
  · exact (powMod_one_iff hp).mp h1
  · intro q hq hdvd
    have h3 := h2 q (hcover q hq hdvd)
    exact fun hcontra => h3 ((powMod_one_iff hp).mpr hcontra)

/- ### Primality of the group order: a Lucas certificate chain -/

theorem cover_mul {q a b : ℕ} (hq : q.Prime) {L : List ℕ}
    (ha : q ∣ a → q ∈ L) (hb : q ∣ b → q ∈ L) : q ∣ a * b → q ∈ L :=
  fun h => (hq.dvd_mul.mp h).elim ha hb

theorem cover_pow {q r e : ℕ} (hq : q.Prime) (hr : r.Prime) {L : List ℕ}
    (hmem : r ∈ L) : q ∣ r ^ e → q ∈ L := fun h => by
  rw [(Nat.prime_dvd_prime_iff_eq hq hr).mp (hq.dvd_of_dvd_pow h)]
  exact hmem

set_option maxRecDepth 8000 in
theorem prime_37447 : Nat.Prime 37447 := by
  have hfact : (37447 : ℕ) - 1 = 2 ^ 1 * 3 ^ 1 * 79 ^ 2 := by decide
  apply lucas_cert 37447 3 (by decide) [2, 3, 79]
  · decide
  · intro q hq hdvd
    rw [hfact] at hdvd
    exact (cover_mul hq (cover_mul hq (cover_pow hq (by norm_num) (by decide)) (cover_pow hq (by norm_num) (by decide))) (cover_pow hq (by norm_num) (by decide))) hdvd
  · decide

set_option maxRecDepth 8000 in
theorem prime_248431 : Nat.Prime 248431 := by
  have hfact : (248431 : ℕ) - 1 = 2 ^ 1 * 3 ^ 1 * 5 ^ 1 * 7 ^ 2 * 13 ^ 2 := by decide
  apply lucas_cert 248431 3 (by decide) [2, 3, 5, 7, 13]
  · decide
  · intro q hq hdvd
    rw [hfact] at hdvd
    exact (cover_mul hq (cover_mul hq (cover_mul hq (cover_mul hq (cover_pow hq (by norm_num) (by decide)) (cover_pow hq (by norm_num) (by decide))) (cover_pow hq (by norm_num) (by decide))) (cover_pow hq (by norm_num) (by decide))) (cover_pow hq (by norm_num) (by decide))) hdvd
  · decide

set_option maxRecDepth 8000 in
theorem prime_330563 : Nat.Prime 330563 := by
  have hfact : (330563 : ℕ) - 1 = 2 ^ 1 * 19 ^ 1 * 8699 ^ 1 := by decide
  apply lucas_cert 330563 2 (by decide) [2, 19, 8699]
  · decide
  · intro q hq hdvd
    rw [hfact] at hdvd
    exact (cover_mul hq (cover_mul hq (cover_pow hq (by norm_num) (by decide)) (cover_pow hq (by norm_num) (by decide))) (cover_pow hq (by norm_num) (by decide))) hdvd
  · decide

set_option maxRecDepth 8000 in
theorem prime_455737 : Nat.Prime 455737 := by
  have hfact : (455737 : ℕ) - 1 = 2 ^ 3 * 3 ^ 1 * 17 ^ 1 * 1117 ^ 1 := by decide
  apply lucas_cert 455737 11 (by decide) [2, 3, 17, 1117]
  · decide
  · intro q hq hdvd
    rw [hfact] at hdvd
    exact (cover_mul hq (cover_mul hq (cover_mul hq (cover_pow hq (by norm_num) (by decide)) (cover_pow hq (by norm_num) (by decide))) (cover_pow hq (by norm_num) (by decide))) (cover_pow hq (by norm_num) (by decide))) hdvd
  · decide

set_option maxRecDepth 8000 in
theorem prime_1276987 : Nat.Prime 1276987 := by
  have hfact : (1276987 : ℕ) - 1 = 2 ^ 1 * 3 ^ 1 * 29 ^ 1 * 41 ^ 1 * 179 ^ 1 := by decide
  apply lucas_cert 1276987 2 (by decide) [2, 3, 29, 41, 179]
  · decide
  · intro q hq hdvd
    rw [hfact] at hdvd
    exact (cover_mul hq (cover_mul hq (cover_mul hq (cover_mul hq (cover_pow hq (by norm_num) (by decide)) (cover_pow hq (by norm_num) (by decide))) (cover_pow hq (by norm_num) (by decide))) (cover_pow hq (by norm_num) (by decide))) (cover_pow hq (by norm_num) (by decide))) hdvd
  · decide

set_option maxRecDepth 8000 in
theorem prime_8463023 : Nat.Prime 8463023 := by
  have hfact : (8463023 : ℕ) - 1 = 2 ^ 1 * 113 ^ 1 * 37447 ^ 1 := by decide
  apply lucas_cert 8463023 5 (by decide) [2, 113, 37447]
  · decide
  · intro q hq hdvd
    rw [hfact] at hdvd
    exact (cover_mul hq (cover_mul hq (cover_pow hq (by norm_num) (by decide)) (cover_pow hq (by norm_num) (by decide))) (cover_pow hq prime_37447 (by decide))) hdvd
  · decide

set_option maxRecDepth 8000 in
theorem prime_9863677 : Nat.Prime 9863677 := by
  have hfact : (9863677 : ℕ) - 1 = 2 ^ 2 * 3 ^ 2 * 311 ^ 1 * 881 ^ 1 := by decide
  apply lucas_cert 9863677 5 (by decide) [2, 3, 311, 881]
  · decide
  · intro q hq hdvd
    rw [hfact] at hdvd
    exact (cover_mul hq (cover_mul hq (cover_mul hq (cover_pow hq (by norm_num) (by decide)) (cover_pow hq (by norm_num) (by decide))) (cover_pow hq (by norm_num) (by decide))) (cover_pow hq (by norm_num) (by decide))) hdvd
  · decide

set_option maxRecDepth 8000 in
theorem prime_154950581 : Nat.Prime 154950581 := by
  have hfact : (154950581 : ℕ) - 1 = 2 ^ 2 * 5 ^ 1 * 17 ^ 1 * 455737 ^ 1 := by decide
  apply lucas_cert 154950581 2 (by decide) [2, 5, 17, 455737]
  · decide
  · intro q hq hdvd
    rw [hfact] at hdvd
    exact (cover_mul hq (cover_mul hq (cover_mul hq (cover_pow hq (by norm_num) (by decide)) (cover_pow hq (by norm_num) (by decide))) (cover_pow hq (by norm_num) (by decide))) (cover_pow hq prime_455737 (by decide))) hdvd
  · decide

set_option maxRecDepth 8000 in
theorem prime_272109983 : Nat.Prime 272109983 := by
  have hfact : (272109983 : ℕ) - 1 = 2 ^ 1 * 19 ^ 1 * 73 ^ 1 * 233 ^ 1 * 421 ^ 1 := by decide
  apply lucas_cert 272109983 5 (by decide) [2, 19, 73, 233, 421]
  · decide
  · intro q hq hdvd
    rw [hfact] at hdvd
    exact (cover_mul hq (cover_mul hq (cover_mul hq (cover_mul hq (cover_pow hq (by norm_num) (by decide)) (cover_pow hq (by norm_num) (by decide))) (cover_pow hq (by norm_num) (by decide))) (cover_pow hq (by norm_num) (by decide))) (cover_pow hq (by norm_num) (by decide))) hdvd
  · decide

set_option maxRecDepth 8000 in
theorem prime_290064143 : Nat.Prime 290064143 := by
  have hfact : (290064143 : ℕ) - 1 = 2 ^ 1 * 79 ^ 1 * 491 ^ 1 * 3739 ^ 1 := by decide
  apply lucas_cert 290064143 5 (by decide) [2, 79, 491, 3739]
  · decide
  · intro q hq hdvd
    rw [hfact] at hdvd
    exact (cover_mul hq (cover_mul hq (cover_mul hq (cover_pow hq (by norm_num) (by decide)) (cover_pow hq (by norm_num) (by decide))) (cover_pow hq (by norm_num) (by decide))) (cover_pow hq (by norm_num) (by decide))) hdvd
  · decide

set_option maxRecDepth 8000 in
theorem prime_t38 : Nat.Prime 228572385721 := by
  have hfact : (228572385721 : ℕ) - 1 = 2 ^ 3 * 3 ^ 1 * 5 ^ 1 * 7 ^ 1 * 272109983 ^ 1 := by decide
  apply lucas_cert 228572385721 23 (by decide) [2, 3, 5, 7, 272109983]
  · decide
  · intro q hq hdvd
    rw [hfact] at hdvd
    exact (cover_mul hq (cover_mul hq (cover_mul hq (cover_mul hq (cover_pow hq (by norm_num) (by decide)) (cover_pow hq (by norm_num) (by decide))) (cover_pow hq (by norm_num) (by decide))) (cover_pow hq (by norm_num) (by decide))) (cover_pow hq prime_272109983 (by decide))) hdvd
  · decide

set_option maxRecDepth 8000 in
theorem prime_t41 : Nat.Prime 1436833069313 := by
  have hfact : (1436833069313 : ℕ) - 1 = 2 ^ 8 * 16979 ^ 1 * 330563 ^ 1 := by decide
  apply lucas_cert 1436833069313 3 (by decide) [2, 16979, 330563]
  · decide
  · intro q hq hdvd
    rw [hfact] at hdvd
    exact (cover_mul hq (cover_mul hq (cover_pow hq (by norm_num) (by decide)) (cover_pow hq (by norm_num) (by decide))) (cover_pow hq prime_330563 (by decide))) hdvd
  · decide

set_option maxRecDepth 8000 in
theorem prime_t44 : Nat.Prime 23314383343543 := by
  have hfact : (23314383343543 : ℕ) - 1 = 2 ^ 1 * 3 ^ 1 * 17 ^ 1 * 228572385721 ^ 1 := by decide
  apply lucas_cert 23314383343543 3 (by decide) [2, 3, 17, 228572385721]
  · decide
  · intro q hq hdvd
    rw [hfact] at hdvd
    exact (cover_mul hq (cover_mul hq (cover_mul hq (cover_pow hq (by norm_num) (by decide)) (cover_pow hq (by norm_num) (by decide))) (cover_pow hq (by norm_num) (by decide))) (cover_pow hq prime_t38 (by decide))) hdvd
  · decide

set_option maxRecDepth 8000 in
theorem prime_t45 : Nat.Prime 37344768852931 := by
  have hfact : (37344768852931 : ℕ) - 1 = 2 ^ 1 * 3 ^ 1 * 5 ^ 1 * 7 ^ 1 * 11 ^ 2 * 149 ^ 1 * 9863677 ^ 1 := by decide
  apply lucas_cert 37344768852931 3 (by decide) [2, 3, 5, 7, 11, 149, 9863677]
  · decide
  · intro q hq hdvd
    rw [hfact] at hdvd
    exact (cover_mul hq (cover_mul hq (cover_mul hq (cover_mul hq (cover_mul hq (cover_mul hq (cover_pow hq (by norm_num) (by decide)) (cover_pow hq (by norm_num) (by decide))) (cover_pow hq (by norm_num) (by decide))) (cover_pow hq (by norm_num) (by decide))) (cover_pow hq (by norm_num) (by decide))) (cover_pow hq (by norm_num) (by decide))) (cover_pow hq prime_9863677 (by decide))) hdvd
  · decide

set_option maxRecDepth 8000 in
theorem prime_t56 : Nat.Prime 55942463741690639 := by
  have hfact : (55942463741690639 : ℕ) - 1 = 2 ^ 1 * 7 ^ 1 * 107 ^ 1 * 37344768852931 ^ 1 := by decide
  apply lucas_cert 55942463741690639 7 (by decide) [2, 7, 107, 37344768852931]
  · decide
  · intro q hq hdvd
    rw [hfact] at hdvd
    exact (cover_mul hq (cover_mul hq (cover_mul hq (cover_pow hq (by norm_num) (by decide)) (cover_pow hq (by norm_num) (by decide))) (cover_pow hq (by norm_num) (by decide))) (cover_pow hq prime_t45 (by decide))) hdvd
  · decide

set_option maxRecDepth 8000 in
theorem prime_q69 : Nat.Prime 426632512014427833817 := by
  have hfact : (426632512014427833817 : ℕ) - 1 = 2 ^ 3 * 3 ^ 1 * 13 ^ 1 * 89 ^ 1 * 659 ^ 1 * 23314383343543 ^ 1 := by decide
  apply lucas_cert 426632512014427833817 11 (by decide) [2, 3, 13, 89, 659, 23314383343543]
  · decide
  · intro q hq hdvd
    rw [hfact] at hdvd
    exact (cover_mul hq (cover_mul hq (cover_mul hq (cover_mul hq (cover_mul hq (cover_pow hq (by norm_num) (by decide)) (cover_pow hq (by norm_num) (by decide))) (cover_pow hq (by norm_num) (by decide))) (cover_pow hq (by norm_num) (by decide))) (cover_pow hq (by norm_num) (by decide))) (cover_pow hq prime_t44 (by decide))) hdvd
  · decide

set_option maxRecDepth 8000 in
theorem prime_q77 : Nat.Prime 120699720968197491947347 := by
  have hfact : (120699720968197491947347 : ℕ) - 1 = 2 ^ 1 * 3 ^ 1 * 13 ^ 1 * 34429 ^ 1 * 290064143 ^ 1 * 154950581 ^ 1 := by decide
  apply lucas_cert 120699720968197491947347 3 (by decide) [2, 3, 13, 34429, 290064143, 154950581]
  · decide
  · intro q hq hdvd
    rw [hfact] at hdvd
    exact (cover_mul hq (cover_mul hq (cover_mul hq (cover_mul hq (cover_mul hq (cover_pow hq (by norm_num) (by decide)) (cover_pow hq (by norm_num) (by decide))) (cover_pow hq (by norm_num) (by decide))) (cover_pow hq (by norm_num) (by decide))) (cover_pow hq prime_290064143 (by decide))) (cover_pow hq prime_154950581 (by decide))) hdvd
  · decide

set_option maxRecDepth 8000 in
theorem prime_q90 : Nat.Prime 1124679999981664229965379347 := by
  have hfact : (1124679999981664229965379347 : ℕ) - 1 = 2 ^ 1 * 3 ^ 1 * 1553 ^ 1 * 120699720968197491947347 ^ 1 := by decide
  apply lucas_cert 1124679999981664229965379347 2 (by decide) [2, 3, 1553, 120699720968197491947347]
  · decide
  · intro q hq hdvd
    rw [hfact] at hdvd
    exact (cover_mul hq (cover_mul hq (cover_mul hq (cover_pow hq (by norm_num) (by decide)) (cover_pow hq (by norm_num) (by decide))) (cover_pow hq (by norm_num) (by decide))) (cover_pow hq prime_q77 (by decide))) hdvd
  · decide

set_option maxRecDepth 8000 in
theorem prime_q91 : Nat.Prime 1495199339761412565498084319 := by
  have hfact : (1495199339761412565498084319 : ℕ) - 1 = 2 ^ 1 * 3 ^ 3 * 64901 ^ 1 * 426632512014427833817 ^ 1 := by decide
  apply lucas_cert 1495199339761412565498084319 6 (by decide) [2, 3, 64901, 426632512014427833817]
  · decide
  · intro q hq hdvd
    rw [hfact] at hdvd
    exact (cover_mul hq (cover_mul hq (cover_mul hq (cover_pow hq (by norm_num) (by decide)) (cover_pow hq (by norm_num) (by decide))) (cover_pow hq (by norm_num) (by decide))) (cover_pow hq prime_q69 (by decide))) hdvd
  · decide

set_option maxRecDepth 8000 in
theorem prime_q94 : Nat.Prime 17942392077136950785977011829 := by
  have hfact : (17942392077136950785977011829 : ℕ) - 1 = 2 ^ 2 * 3 ^ 1 * 1495199339761412565498084319 ^ 1 := by decide
  apply lucas_cert 17942392077136950785977011829 6 (by decide) [2, 3, 1495199339761412565498084319]
  · decide
  · intro q hq hdvd
    rw [hfact] at hdvd
    exact (cover_mul hq (cover_mul hq (cover_pow hq (by norm_num) (by decide)) (cover_pow hq (by norm_num) (by decide))) (cover_pow hq prime_q91 (by decide))) hdvd
  · decide

set_option maxRecDepth 8000 in
theorem prime_p200 : Nat.Prime 1059392654943455286185473617842338478315215895509773412096307 := by
  have hfact : (1059392654943455286185473617842338478315215895509773412096307 : ℕ) - 1 = 2 ^ 1 * 251 ^ 1 * 248431 ^ 1 * 8463023 ^ 1 * 55942463741690639 ^ 1 * 17942392077136950785977011829 ^ 1 := by decide
  apply lucas_cert 1059392654943455286185473617842338478315215895509773412096307 2 (by decide) [2, 251, 248431, 8463023, 55942463741690639, 17942392077136950785977011829]
  · decide
  · intro q hq hdvd
    rw [hfact] at hdvd
    exact (cover_mul hq (cover_mul hq (cover_mul hq (cover_mul hq (cover_mul hq (cover_pow hq (by norm_num) (by decide)) (cover_pow hq (by norm_num) (by decide))) (cover_pow hq prime_248431 (by decide))) (cover_pow hq prime_8463023 (by decide))) (cover_pow hq prime_t56 (by decide))) (cover_pow hq prime_q94 (by decide))) hdvd
  · decide

set_option maxRecDepth 8000 in
theorem prime_p281 : Nat.Prime 3055465788140352002733946906144561090641249606160407884365391979704929268480326390471 := by
  have hfact : (3055465788140352002733946906144561090641249606160407884365391979704929268480326390471 : ℕ) - 1 = 2 ^ 1 * 3 ^ 1 * 5 ^ 1 * 151 ^ 1 * 347 ^ 1 * 1276987 ^ 1 * 1436833069313 ^ 1 * 1059392654943455286185473617842338478315215895509773412096307 ^ 1 := by decide
  apply lucas_cert 3055465788140352002733946906144561090641249606160407884365391979704929268480326390471 12 (by decide) [2, 3, 5, 151, 347, 1276987, 1436833069313, 1059392654943455286185473617842338478315215895509773412096307]
  · decide
  · intro q hq hdvd
    rw [hfact] at hdvd
    exact (cover_mul hq (cover_mul hq (cover_mul hq (cover_mul hq (cover_mul hq (cover_mul hq (cover_mul hq (cover_pow hq (by norm_num) (by decide)) (cover_pow hq (by norm_num) (by decide))) (cover_pow hq (by norm_num) (by decide))) (cover_pow hq (by norm_num) (by decide))) (cover_pow hq (by norm_num) (by decide))) (cover_pow hq prime_1276987 (by decide))) (cover_pow hq prime_t41 (by decide))) (cover_pow hq prime_p200 (by decide))) hdvd
  · decide

set_option maxRecDepth 8000 in
theorem ORDER_prime : Nat.Prime ORDER := by
  have hfact : (ORDER : ℕ) - 1 = 2 ^ 1 * 3 ^ 2 * 7 ^ 2 * 13 ^ 1 * 1124679999981664229965379347 ^ 1 * 3055465788140352002733946906144561090641249606160407884365391979704929268480326390471 ^ 1 := by decide
  apply lucas_cert ORDER 2 (by decide) [2, 3, 7, 13, 1124679999981664229965379347, 3055465788140352002733946906144561090641249606160407884365391979704929268480326390471]
  · decide
  · intro q hq hdvd
    rw [hfact] at hdvd
    exact (cover_mul hq (cover_mul hq (cover_mul hq (cover_mul hq (cover_mul hq (cover_pow hq (by norm_num) (by decide)) (cover_pow hq (by norm_num) (by decide))) (cover_pow hq (by norm_num) (by decide))) (cover_pow hq (by norm_num) (by decide))) (cover_pow hq prime_q90 (by decide))) (cover_pow hq prime_p281 (by decide))) hdvd
  · decide

instance : Fact (Nat.Prime ORDER) := ⟨ORDER_prime⟩

instance : NeZero ORDER := ⟨by decide⟩

/- ### Claim C2 -/

theorem natCast_inj_of_lt {a b : ℕ} (ha : a < ORDER) (hb : b < ORDER)
    (h : ((a : ℕ) : ZMod ORDER) = ((b : ℕ) : ZMod ORDER)) : a = b := by
  have h2 := congrArg ZMod.val h
  rwa [ZMod.val_cast_of_lt ha, ZMod.val_cast_of_lt hb] at h2

theorem fromMont_montMul (a b : ℕ) :
    fromMont (montMul a b) = fromMont a * fromMont b % ORDER := by
  unfold fromMont montMul
  rw [Nat.mod_mul_mod]
  conv_rhs => rw [Nat.mul_mod_mod, Nat.mod_mul_mod]
  ring_nf

/-- Claim C2: for every valid Scalar `s`, the square-root engine returns a
candidate and a validity flag that is set exactly when the candidate squares
back to `s`; for every quadratic residue (of the represented value) the flag
is set and the carried value squares to the input, and for every non-residue
the flag is cleared. -/
theorem claim_C2 : ∀ s : ℕ, s < ORDER →
    ((sqrt s).2 = true ↔ montSquare (sqrt s).1 = s)
    ∧ ((∃ w, w * w % ORDER = fromMont s) → (sqrt s).2 = true ∧ montSquare (sqrt s).1 = s)
    ∧ ((∀ w, w * w % ORDER ≠ fromMont s) → (sqrt s).2 = false) := by
  intro s hs
  have hflag : (sqrt s).2 = true ↔ montSquare (sqrt s).1 = s := by
    simp [sqrt]
  refine ⟨hflag, ?_, ?_⟩
  · rintro ⟨w, hw⟩
    suffices hsq : montSquare (sqrtCandidate s) = s by
      exact ⟨hflag.mpr hsq, hsq⟩
    set x := fromMont s with hxdef
    have hx : x < ORDER := fromMont_lt s
    set u : ZMod ORDER := ((x : ℕ) : ZMod ORDER) with hudef
    have ha : ((s : ℕ) : ZMod ORDER) = u * Rz := by
      conv_lhs => rw [← toMont_fromMont hs]
      unfold toMont Rz
      rw [ZMod.natCast_mod]
      push_cast
      ring
    have hcand := sqrtCandidate_pow ha
    have hsq2 : ((montSquare (sqrtCandidate s) : ℕ) : ZMod ORDER) =
        u ^ (SQRT_EXP + SQRT_EXP) * Rz := by
      unfold montSquare
      exact montMul_pow hcand hcand
    have hwz : u = ((w : ℕ) : ZMod ORDER) ^ 2 := by
      have h2 := congrArg (fun m : ℕ => (m : ZMod ORDER)) hw
      simp only [ZMod.natCast_mod] at h2
      push_cast at h2
      rw [hudef, ← h2]
      ring
    have hupow : u ^ (SQRT_EXP + SQRT_EXP) = u := by
      by_cases hw0 : ((w : ℕ) : ZMod ORDER) = 0
      · rw [hwz, hw0]
        have hz : (0 : ZMod ORDER) ^ 2 = 0 := by norm_num
        rw [hz, zero_pow]
        have hpos : 0 < SQRT_EXP + SQRT_EXP := by norm_num [SQRT_EXP]
        omega
      · have hfermat : ((w : ℕ) : ZMod ORDER) ^ (ORDER - 1) = 1 :=
          ZMod.pow_card_sub_one_eq_one hw0
        rw [hwz, ← pow_mul]
        have h1 : 2 * (SQRT_EXP + SQRT_EXP) = (ORDER - 1) + 2 := by
          have h2 := SQRT_EXP_spec
          omega
        rw [h1, pow_add, hfermat, one_mul]
    have hcast : ((montSquare (sqrtCandidate s) : ℕ) : ZMod ORDER) =
        ((s : ℕ) : ZMod ORDER) := by
      rw [hsq2, hupow, ha]
    exact natCast_inj_of_lt (montMul_lt _ _) hs hcast
  · intro hno
    rcases hb : (sqrt s).2 with _ | _
    · rfl
    · exfalso
      have hsq : montSquare (sqrt s).1 = s := hflag.mp hb
      apply hno (fromMont (sqrt s).1)
      have h1 : fromMont (montSquare (sqrt s).1) = fromMont s := by rw [hsq]
      rw [← h1]
      unfold montSquare
      rw [fromMont_montMul]

/-- Witness for claim C2 at the Scalar representing 4 (a quadratic
residue). -/
theorem claim_C2_witness :
    toMont 4 < ORDER
      ∧ (((sqrt (toMont 4)).2 = true ↔ montSquare (sqrt (toMont 4)).1 = toMont 4)
        ∧ ((∃ w, w * w % ORDER = fromMont (toMont 4)) →
            (sqrt (toMont 4)).2 = true ∧ montSquare (sqrt (toMont 4)).1 = toMont 4)
        ∧ ((∀ w, w * w % ORDER ≠ fromMont (toMont 4)) → (sqrt (toMont 4)).2 = false)) :=
  ⟨by decide, claim_C2 (toMont 4) (by decide)⟩

/- ### The Bernstein-Yang cofactor invariant (claim C1, partial) -/

/-- The cofactor invariant of the Bernstein-Yang loop: `f` stays odd and,
after `i` divsteps, `f * 2^i` and `g * 2^i` are congruent to the cofactors
`v` and `r` (divided by `R`) times the initial `g`. -/

def DivInv (a i : ℕ) (s : DivState) : Prop :=
  s.f % 2 = 1
  ∧ ((s.f : ZMod ORDER)) * 2 ^ i = (s.v : ZMod ORDER) * RINVz * ((fromMont a : ℕ) : ZMod ORDER)
  ∧ ((s.g : ZMod ORDER)) * 2 ^ i = (s.r : ZMod ORDER) * RINVz * ((fromMont a : ℕ) : ZMod ORDER)

theorem montSub_cast (a b : ℕ) :
    ((montSub a b : ℕ) : ZMod ORDER) = (a : ZMod ORDER) - (b : ZMod ORDER) := by
  unfold montSub
  rw [ZMod.natCast_mod]
  push_cast [Nat.le_of_lt_succ]
  rw [Nat.cast_sub (Nat.le_of_lt (Nat.mod_lt _ (by decide)))]
  rw [ZMod.natCast_mod, ZMod.natCast_self]
  ring

theorem half_cast {g : ℤ} (h : g % 2 = 0) :
    ((g / 2 : ℤ) : ZMod ORDER) * 2 = (g : ZMod ORDER) := by
  have h2 : 2 * (g / 2) = g := by omega
  calc ((g / 2 : ℤ) : ZMod ORDER) * 2 = ((2 * (g / 2) : ℤ) : ZMod ORDER) := by
        push_cast; ring
    _ = (g : ZMod ORDER) := by rw [h2]

theorem divstep_inv {a i : ℕ} {s : DivState} (h : DivInv a i s) :
    DivInv a (i + 1) (divstep s) := by
  obtain ⟨hodd, hf, hg⟩ := h
  set G : ZMod ORDER := ((fromMont a : ℕ) : ZMod ORDER) with hG
  unfold divstep
  by_cases hc : 0 < s.d ∧ s.g % 2 = 1
  · rw [if_pos hc]
    refine ⟨hc.2, ?_, ?_⟩
    · show ((s.g : ZMod ORDER)) * 2 ^ (i + 1) =
        ((2 * s.r % ORDER : ℕ) : ZMod ORDER) * RINVz * G
      rw [ZMod.natCast_mod]
      push_cast
      rw [pow_succ, ← mul_assoc, hg]
      ring
    · show (((s.g - s.f) / 2 : ℤ) : ZMod ORDER) * 2 ^ (i + 1) =
        ((montSub s.r s.v : ℕ) : ZMod ORDER) * RINVz * G
      have heven : (s.g - s.f) % 2 = 0 := by omega
      have hhalf := half_cast heven
      rw [pow_succ, ← mul_assoc]
      calc (((s.g - s.f) / 2 : ℤ) : ZMod ORDER) * 2 ^ i * 2
          = (((s.g - s.f) / 2 : ℤ) : ZMod ORDER) * 2 * 2 ^ i := by ring
        _ = (((s.g - s.f) : ℤ) : ZMod ORDER) * 2 ^ i := by rw [hhalf]
        _ = ((s.g : ZMod ORDER)) * 2 ^ i - ((s.f : ZMod ORDER)) * 2 ^ i := by
            push_cast; ring
        _ = (s.r : ZMod ORDER) * RINVz * G - (s.v : ZMod ORDER) * RINVz * G := by
            rw [hf, hg]
        _ = ((montSub s.r s.v : ℕ) : ZMod ORDER) * RINVz * G := by
            rw [montSub_cast]; ring
  · rw [if_neg hc]
    refine ⟨hodd, ?_, ?_⟩
    · show ((s.f : ZMod ORDER)) * 2 ^ (i + 1) =
        ((2 * s.v % ORDER : ℕ) : ZMod ORDER) * RINVz * G
      rw [ZMod.natCast_mod]
      push_cast
      rw [pow_succ, ← mul_assoc, hf]
      ring
    · show (((s.g + s.g % 2 * s.f) / 2 : ℤ) : ZMod ORDER) * 2 ^ (i + 1) =
        (((s.r + (s.g % 2).toNat * s.v) % ORDER : ℕ) : ZMod ORDER) * RINVz * G
      have heven : (s.g + s.g % 2 * s.f) % 2 = 0 := by
        rcases Int.emod_two_eq_zero_or_one s.g with h2 | h2 <;> rw [h2] <;> omega
      have hhalf := half_cast heven
      have htn : ((s.g % 2).toNat : ℤ) = s.g % 2 := by
        rcases Int.emod_two_eq_zero_or_one s.g with h2 | h2 <;> rw [h2] <;> rfl
      rw [ZMod.natCast_mod]
      rw [pow_succ, ← mul_assoc]
      calc (((s.g + s.g % 2 * s.f) / 2 : ℤ) : ZMod ORDER) * 2 ^ i * 2
          = (((s.g + s.g % 2 * s.f) / 2 : ℤ) : ZMod ORDER) * 2 * 2 ^ i := by ring
        _ = (((s.g + s.g % 2 * s.f) : ℤ) : ZMod ORDER) * 2 ^ i := by rw [hhalf]
        _ = ((s.g : ZMod ORDER)) * 2 ^ i +
              (((s.g % 2 : ℤ) : ZMod ORDER)) * (((s.f : ZMod ORDER)) * 2 ^ i) := by
            push_cast; ring
        _ = (s.r : ZMod ORDER) * RINVz * G +
              (((s.g % 2 : ℤ) : ZMod ORDER)) * ((s.v : ZMod ORDER) * RINVz * G) := by
            rw [hf, hg]
        _ = (((s.r : ℕ) + (s.g % 2).toNat * s.v : ℕ) : ZMod ORDER) * RINVz * G := by
            have hcast : (((s.g % 2).toNat : ℕ) : ZMod ORDER) =
                ((s.g % 2 : ℤ) : ZMod ORDER) := by
              rcases Int.emod_two_eq_zero_or_one s.g with h2 | h2 <;> rw [h2] <;> simp
            push_cast
            rw [hcast]
            ring

theorem divstepLoop_inv {a : ℕ} :
    ∀ (k i : ℕ) (s : DivState), DivInv a i s → DivInv a (i + k) (divstepLoop k s) := by
  intro k
  induction k with
  | zero => intro i s h; simpa using h
  | succ k ih =>
    intro i s h
    have h1 := ih (i + 1) (divstep s) (divstep_inv h)
    have h2 : i + 1 + k = i + (k + 1) := by omega
    rw [h2] at h1
    exact h1

theorem invertInit_inv (a : ℕ) : DivInv a 0 (invertInitState a) := by
  refine ⟨?_, ?_, ?_⟩
  · show (ORDER : ℤ) % 2 = 1
    decide
  · show ((ORDER : ℤ) : ZMod ORDER) * 2 ^ 0 =
      (0 : ZMod ORDER) * RINVz * ((fromMont a : ℕ) : ZMod ORDER)
    push_cast
    simp
  · show ((fromMont a : ℕ) : ZMod ORDER) * 2 ^ 0 =
      ((montOne : ℕ) : ZMod ORDER) * RINVz * ((fromMont a : ℕ) : ZMod ORDER)
    have hone : ((montOne : ℕ) : ZMod ORDER) * RINVz = 1 := by
      have h := congrArg (fun m : ℕ => (m : ZMod ORDER)) RINV_spec
      simpa [montOne, RINVz, ZMod.natCast_mod] using h
    rw [mul_comm ((montOne : ℕ) : ZMod ORDER) RINVz, mul_comm]
    rw [mul_comm RINVz ((montOne : ℕ) : ZMod ORDER), hone]
    simp

theorem montOpp_cast (a : ℕ) :
    ((montOpp a : ℕ) : ZMod ORDER) = -(a : ZMod ORDER) := by
  unfold montOpp
  rw [ZMod.natCast_mod]
  rw [Nat.cast_sub (Nat.le_of_lt (Nat.mod_lt _ ORDER_pos))]
  rw [ZMod.natCast_mod, ZMod.natCast_self]
  ring

set_option maxRecDepth 8000 in
/-- If the final `f` of the divstep loop is plus or minus one, the output of
the inversion engine is the modular inverse of the input. -/
theorem fieldInvert_correct_of_pm_one {a : ℕ}
    (hfin : (invertFinalState a).f = 1 ∨ (invertFinalState a).f = -1) :
    montMul (fieldInvert a).1 a = toMont 1 := by
  have hinv : DivInv a ITERATIONS (invertFinalState a) := by
    rw [invertFinalState_eq]
    simpa using divstepLoop_inv ITERATIONS 0 _ (invertInit_inv a)
  obtain ⟨-, hf, -⟩ := hinv
  have hT1 : ((toMont 1 : ℕ) : ZMod ORDER) = Rz := by
    show ((1 * R % ORDER : ℕ) : ZMod ORDER) = Rz
    rw [ZMod.natCast_mod, one_mul]
    rfl
  have hP : ((divstep_precomp : ℕ) : ZMod ORDER) * 2 ^ ITERATIONS = Rz := by
    have h := congrArg (fun m : ℕ => (m : ZMod ORDER)) divstep_precomp_spec
    simp only [ZMod.natCast_mod] at h
    push_cast at h
    rw [h, hT1]
  have hG : ((fromMont a : ℕ) : ZMod ORDER) = (a : ZMod ORDER) * RINVz := by
    unfold fromMont RINVz
    rw [ZMod.natCast_mod]
    push_cast
    ring
  rw [hG] at hf
  apply natCast_inj_of_lt (montMul_lt _ _) (toMont_lt 1)
  rw [montMul_cast, hT1]
  rcases hfin with hf1 | hf1
  · have hsign : ¬ ((invertFinalState a).f < 0) := by rw [hf1]; norm_num
    have h1 : (fieldInvert a).1 =
        montMul (invertFinalState a).v divstep_precomp := by
      unfold fieldInvert
      simp only [if_neg hsign]
    rw [h1, montMul_cast]
    rw [hf1] at hf
    push_cast at hf
    linear_combination (-(((divstep_precomp : ℕ) : ZMod ORDER))) * hf + hP
  · have hsign : (invertFinalState a).f < 0 := by rw [hf1]; norm_num
    have h1 : (fieldInvert a).1 =
        montMul (montOpp (invertFinalState a).v) divstep_precomp := by
      unfold fieldInvert
      simp only [if_pos hsign]
    rw [h1, montMul_cast, montOpp_cast]
    rw [hf1] at hf
    push_cast at hf
    linear_combination (((divstep_precomp : ℕ) : ZMod ORDER)) * hf + hP

/-- The validity flag of the inversion is set exactly on nonzero input. -/
theorem fieldInvert_flag (a : ℕ) : (fieldInvert a).2 = !(a == 0) := rfl

/- ### gcd preservation along the divstep loop (claim C1, partial):
whenever the loop drives `g` to zero, the final `f` is plus or minus one and
the engine output is the modular inverse. -/

theorem nat_odd_as_int {e : ℕ} {f : ℤ} (hef : (e : ℤ) ∣ f) (hf : f % 2 = 1) :
    Int.gcd (e : ℤ) 2 = 1 := by
  have he : ¬ (2 ∣ e) := by
    intro h2
    have h3 : (2 : ℤ) ∣ f := dvd_trans (by exact_mod_cast h2) hef
    omega
  have : Int.gcd (e : ℤ) 2 = Nat.gcd e 2 := by
    simp [Int.gcd]
  rw [this]
  have h4 := Nat.gcd_dvd_right e 2
  have h5 := Nat.gcd_dvd_left e 2
  rcases (Nat.dvd_prime Nat.prime_two).mp h4 with h | h
  · exact h
  · exact absurd (h ▸ h5) he

theorem gcd_aux_dvd {d : ℕ} {x y : ℤ} (hx : (d : ℤ) ∣ x) (hy : (d : ℤ) ∣ y) :
    (d : ℤ) ∣ Int.gcd x y := Int.dvd_gcd hx hy

theorem gcd_swap_step {f g : ℤ} (hf : f % 2 = 1) (hg : g % 2 = 1) :
    Int.gcd g ((g - f) / 2) = Int.gcd f g := by
  have h2 : 2 * ((g - f) / 2) = g - f := by omega
  apply Nat.dvd_antisymm
  · rw [← Int.natCast_dvd_natCast]
    apply Int.dvd_gcd
    · have hdg : ((Int.gcd g ((g - f) / 2) : ℕ) : ℤ) ∣ g := Int.gcd_dvd_left
      have hdh : ((Int.gcd g ((g - f) / 2) : ℕ) : ℤ) ∣ (g - f) / 2 := Int.gcd_dvd_right
      have : ((Int.gcd g ((g - f) / 2) : ℕ) : ℤ) ∣ g - 2 * ((g - f) / 2) := by
        exact dvd_sub hdg (Dvd.dvd.mul_left hdh 2)
      rw [h2] at this
      simpa using this
    · exact Int.gcd_dvd_left
  · rw [← Int.natCast_dvd_natCast]
    apply Int.dvd_gcd
    · exact Int.gcd_dvd_right
    · have he : ((Int.gcd f g : ℕ) : ℤ) ∣ (g - f) := dvd_sub Int.gcd_dvd_right Int.gcd_dvd_left
      rw [← h2] at he
      have hcop : Int.gcd ((Int.gcd f g : ℕ) : ℤ) 2 = 1 :=
        nat_odd_as_int Int.gcd_dvd_left hf
      exact Int.dvd_of_dvd_mul_left_of_gcd_one (by rwa [mul_comm] at he) hcop

theorem gcd_add_step {f g : ℤ} (hf : f % 2 = 1) (hg : g % 2 = 1) :
    Int.gcd f ((g + f) / 2) = Int.gcd f g := by
  have h2 : 2 * ((g + f) / 2) = g + f := by omega
  apply Nat.dvd_antisymm
  · rw [← Int.natCast_dvd_natCast]
    apply Int.dvd_gcd
    · exact Int.gcd_dvd_left
    · have hdf : ((Int.gcd f ((g + f) / 2) : ℕ) : ℤ) ∣ f := Int.gcd_dvd_left
      have hdh : ((Int.gcd f ((g + f) / 2) : ℕ) : ℤ) ∣ (g + f) / 2 := Int.gcd_dvd_right
      have : ((Int.gcd f ((g + f) / 2) : ℕ) : ℤ) ∣ 2 * ((g + f) / 2) - f :=
        dvd_sub (Dvd.dvd.mul_left hdh 2) hdf
      rw [h2] at this
      simpa using this
  · rw [← Int.natCast_dvd_natCast]
    apply Int.dvd_gcd
    · exact Int.gcd_dvd_left
    · have he : ((Int.gcd f g : ℕ) : ℤ) ∣ (g + f) := dvd_add Int.gcd_dvd_right Int.gcd_dvd_left
      rw [← h2] at he
      have hcop : Int.gcd ((Int.gcd f g : ℕ) : ℤ) 2 = 1 :=
        nat_odd_as_int Int.gcd_dvd_left hf
      exact Int.dvd_of_dvd_mul_left_of_gcd_one (by rwa [mul_comm] at he) hcop

theorem gcd_even_step {f g : ℤ} (hf : f % 2 = 1) (hg : g % 2 = 0) :
    Int.gcd f (g / 2) = Int.gcd f g := by
  have h2 : 2 * (g / 2) = g := by omega
  apply Nat.dvd_antisymm
  · rw [← Int.natCast_dvd_natCast]
    apply Int.dvd_gcd
    · exact Int.gcd_dvd_left
    · have hdh : ((Int.gcd f (g / 2) : ℕ) : ℤ) ∣ g / 2 := Int.gcd_dvd_right
      have : ((Int.gcd f (g / 2) : ℕ) : ℤ) ∣ 2 * (g / 2) := Dvd.dvd.mul_left hdh 2
      rwa [h2] at this
  · rw [← Int.natCast_dvd_natCast]
    apply Int.dvd_gcd
    · exact Int.gcd_dvd_left
    · have he : ((Int.gcd f g : ℕ) : ℤ) ∣ (g / 2) * 2 := by
        rw [mul_comm, h2]
        exact Int.gcd_dvd_right
      have hcop : Int.gcd ((Int.gcd f g : ℕ) : ℤ) 2 = 1 :=
        nat_odd_as_int Int.gcd_dvd_left hf
      exact Int.dvd_of_dvd_mul_left_of_gcd_one he hcop

theorem divstep_f_odd {s : DivState} (hf : s.f % 2 = 1) : (divstep s).f % 2 = 1 := by
  unfold divstep
  by_cases hc : 0 < s.d ∧ s.g % 2 = 1
  · rw [if_pos hc]
    exact hc.2
  · rw [if_neg hc]
    exact hf

theorem divstep_gcd {s : DivState} (hf : s.f % 2 = 1) :
    Int.gcd (divstep s).f (divstep s).g = Int.gcd s.f s.g := by
  unfold divstep
  by_cases hc : 0 < s.d ∧ s.g % 2 = 1
  · rw [if_pos hc]
    exact gcd_swap_step hf hc.2
  · rw [if_neg hc]
    rcases Int.emod_two_eq_zero_or_one s.g with hg | hg
    · show Int.gcd s.f ((s.g + s.g % 2 * s.f) / 2) = _
      rw [hg]
      simpa using gcd_even_step hf hg
    · show Int.gcd s.f ((s.g + s.g % 2 * s.f) / 2) = _
      rw [hg]
      simpa using gcd_add_step hf hg

theorem divstepLoop_gcd : ∀ (k : ℕ) (s : DivState), s.f % 2 = 1 →
    Int.gcd (divstepLoop k s).f (divstepLoop k s).g = Int.gcd s.f s.g := by
  intro k
  induction k with
  | zero => intro s _; rfl
  | succ k ih =>
    intro s hf
    have h1 := ih (divstep s) (divstep_f_odd hf)
    rw [show divstepLoop (k + 1) s = divstepLoop k (divstep s) from rfl, h1, divstep_gcd hf]

theorem invert_f_pm_one {a : ℕ} (ha0 : 0 < a) (ha : a < ORDER)
    (hg : (invertFinalState a).g = 0) :
    (invertFinalState a).f = 1 ∨ (invertFinalState a).f = -1 := by
  have hstart : (invertInitState a).f % 2 = 1 := by
    show (ORDER : ℤ) % 2 = 1
    decide
  have h1 : Int.gcd (invertFinalState a).f (invertFinalState a).g
      = Int.gcd (invertInitState a).f (invertInitState a).g := by
    rw [invertFinalState_eq]
    exact divstepLoop_gcd ITERATIONS _ hstart
  rw [hg, Int.gcd_zero_right] at h1
  have h2 : Int.gcd (invertInitState a).f (invertInitState a).g
      = Nat.gcd ORDER (fromMont a) := by
    show Int.gcd ((ORDER : ℕ) : ℤ) ((fromMont a : ℕ) : ℤ) = _
    simp [Int.gcd]
  have hg0pos : 0 < fromMont a := by
    rcases Nat.eq_zero_or_pos (fromMont a) with h0 | h0
    · exfalso
      unfold fromMont at h0
      have hdvd : ORDER ∣ a * RINV := Nat.dvd_of_mod_eq_zero h0
      rcases (Nat.Prime.dvd_mul ORDER_prime).mp hdvd with hda | hdr
      · have := Nat.le_of_dvd ha0 hda
        omega
      · have hrpos : 0 < RINV := by decide
        have hrlt : RINV < ORDER := by decide
        have := Nat.le_of_dvd hrpos hdr
        omega
    · exact h0
  have hg0lt : fromMont a < ORDER := Nat.mod_lt _ ORDER_pos
  have hcop : Nat.gcd ORDER (fromMont a) = 1 := by
    have hnd : ¬ ORDER ∣ fromMont a := by
      intro hdvd
      have := Nat.le_of_dvd hg0pos hdvd
      omega
    exact (Nat.Prime.coprime_iff_not_dvd ORDER_prime).mpr hnd
  rw [h2, hcop] at h1
  rcases Int.natAbs_eq_iff.mp h1 with h | h
  · exact Or.inl (by exact_mod_cast h)
  · exact Or.inr (by exact_mod_cast h)

theorem fieldInvert_correct_of_g_eq_zero {a : ℕ} (ha0 : 0 < a) (ha : a < ORDER)
    (hg : (invertFinalState a).g = 0) :
    montMul (fieldInvert a).1 a = toMont 1 :=
  fieldInvert_correct_of_pm_one (invert_f_pm_one ha0 ha hg)

end P384
